import Mathlib

set_option maxRecDepth 4000

deriving instance DecidableEq for Except

/-!
Verification development for the ritual binding generator.

This file embeds, in Lean, the parts of the generator that the verified
properties talk about:

* the C++ source type model shared by the passes (types, paths, template
  arguments);
* the foreign-call (FFI) conversion of C++ types;
* the resolvability checker pass;
* the allocation-place passes (the authoritative `set_allocation_places`
  and the advisory `suggest_allocation_places`);
* the Rust item database (`rust_info`) and the Rust code generator
  (`rust_code_generator`).

Pure functions of the source become Lean functions; the stateful passes
become explicit state-passing functions.  Machine integer widths play no
role in the embedded fragment, so counters are `Nat` and enum constant
values are `Int`.  Fallible code returns `Except String`.

Definitions whose Rust source is not part of the repository snapshot
(only their callers or tests are) are modelled from the specification and
say so in their doc comment.
-/

namespace Ritual

/-! ## C++ source type model

`CppType`, `CppPath`, `CppPathItem` follow `cpp_type.rs` / `cpp_data.rs`:
a path is a sequence of identifiers, each optionally carrying template
arguments which are themselves C++ types.  The Rust `Vec`/`Option`
containers inside the recursive knot are represented by the dedicated
mutual list/option types `CppTypeList`, `CppTemplateArgs`,
`CppPathItemList` (isomorphic to `List`/`Option`, spelled out so that the
mutual induction stays structural). -/

mutual

inductive CppType where
  | Void : CppType
  | BuiltInNumeric (name : String) : CppType
  | SpecificNumeric (name : String) (bits : Nat) (isSigned : Bool) (isFloat : Bool) : CppType
  | PointerSizedInteger (name : String) (isSigned : Bool) : CppType
  | Enum (path : CppPath) : CppType
  | Class (path : CppPath) : CppType
  | PointerLike (kind : CppPointerLikeTypeKind) (isConst : Bool) (target : CppType) : CppType
  | FunctionPointer (returnType : CppType) (arguments : CppTypeList)
      (allowsVariadicArguments : Bool) : CppType
  | TemplateParameter (nestedLevel : Nat) (index : Nat) (name : String) : CppType
  deriving DecidableEq

inductive CppPointerLikeTypeKind where
  | Pointer : CppPointerLikeTypeKind
  | Reference : CppPointerLikeTypeKind
  deriving DecidableEq

inductive CppTypeList where
  | nil : CppTypeList
  | cons (head : CppType) (tail : CppTypeList) : CppTypeList
  deriving DecidableEq

inductive CppTemplateArgs where
  | none : CppTemplateArgs
  | some (args : CppTypeList) : CppTemplateArgs
  deriving DecidableEq

inductive CppPathItem where
  | mk (name : String) (templateArguments : CppTemplateArgs) : CppPathItem
  deriving DecidableEq

inductive CppPathItemList where
  | nil : CppPathItemList
  | cons (head : CppPathItem) (tail : CppPathItemList) : CppPathItemList
  deriving DecidableEq

inductive CppPath where
  | mk (items : CppPathItemList) : CppPath
  deriving DecidableEq

end

instance : Inhabited CppPathItem := ⟨.mk "" .none⟩

def CppPathItem.name : CppPathItem → String
  | .mk n _ => n

def CppPathItem.templateArguments : CppPathItem → CppTemplateArgs
  | .mk _ a => a

def CppPathItemList.getLastD : CppPathItemList → CppPathItem → CppPathItem
  | .nil, d => d
  | .cons i .nil, _ => i
  | .cons _ (CppPathItemList.cons i rest), d => CppPathItemList.getLastD (.cons i rest) d

def CppPath.items : CppPath → CppPathItemList
  | .mk l => l

/-- The embedded `CppPath::last`: the final item of a path (paths are non-empty in the
source; the default item stands in for the impossible empty case). -/
def CppPath.last (p : CppPath) : CppPathItem :=
  p.items.getLastD default

def CppTypeList.toList : CppTypeList → List CppType
  | .nil => []
  | .cons t rest => t :: rest.toList

def CppTypeList.length : CppTypeList → Nat
  | .nil => 0
  | .cons _ rest => rest.length + 1

/-- Shorthand for building a one-item path with no template arguments. -/
def CppPath.fromName (name : String) : CppPath :=
  .mk (.cons (.mk name .none) .nil)

/-! `is_or_contains_template_parameter` lives in `cpp_type.rs`, which is
absent from the snapshot; the specification pins it down: a type is
"concrete" iff it contains no `TemplateParameter` anywhere, including
inside template arguments of class paths and inside function-pointer
signatures. -/

mutual

/-- Modelled from the spec: `CppType::is_or_contains_template_parameter` —
true iff a `TemplateParameter` occurs anywhere inside the type. -/
def CppType.containsTemplateParameter : CppType → Bool
  | .TemplateParameter _ _ _ => true
  | .Class p => p.containsTemplateParameter
  | .Enum p => p.containsTemplateParameter
  | .PointerLike _ _ t => t.containsTemplateParameter
  | .FunctionPointer r args _ =>
      r.containsTemplateParameter || args.containsTemplateParameter
  | _ => false

def CppTypeList.containsTemplateParameter : CppTypeList → Bool
  | .nil => false
  | .cons t rest => t.containsTemplateParameter || rest.containsTemplateParameter

def CppPath.containsTemplateParameter : CppPath → Bool
  | .mk items => items.containsTemplateParameter

def CppPathItemList.containsTemplateParameter : CppPathItemList → Bool
  | .nil => false
  | .cons i rest => i.containsTemplateParameter || rest.containsTemplateParameter

def CppPathItem.containsTemplateParameter : CppPathItem → Bool
  | .mk _ .none => false
  | .mk _ (.some args) => args.containsTemplateParameter

end

/-! ## Foreign-call conversion of C++ types (`to_cpp_ffi_type`)

The implementation lives in `cpp_type.rs`, absent from the snapshot; only
its unit tests are present.  The function is modelled from the spec
(section 4.1) and cross-checked against those tests. -/

inductive CppTypeRole where
  | ReturnType : CppTypeRole
  | NotReturnType : CppTypeRole
  deriving DecidableEq

inductive CppTypeConversionToFfi where
  | NoChange : CppTypeConversionToFfi
  | ValueToPointer : CppTypeConversionToFfi
  | ReferenceToPointer : CppTypeConversionToFfi
  | QFlagsToUInt : CppTypeConversionToFfi
  deriving DecidableEq

structure CppFfiType where
  originalType : CppType
  ffiType : CppType
  conversion : CppTypeConversionToFfi
  deriving DecidableEq

/-- Modelled from the spec: the recognized-flags-wrapper detection rule is
a template name pattern; the tests fix the pattern to the template name
`QFlags`. -/
def CppPath.isFlagsWrapper (p : CppPath) : Bool :=
  p.last.name == "QFlags"

/-- Modelled from the spec (section 4.1; `CppType::to_cpp_ffi_type` is in
the absent `cpp_type.rs`): the foreign-call conversion of a concrete C++
type.  Any type containing a template parameter is unsupported.  A
flags-wrapper class becomes the platform unsigned int; any other class by
value becomes a pointer whose constness depends on the role; a reference
to a class becomes a pointer of matching constness; everything else
(including plain pointers) is unchanged. -/
def CppType.toCppFfiType (t : CppType) (role : CppTypeRole) : Except String CppFfiType :=
  if t.containsTemplateParameter then
    Except.error "UnsupportedType: template parameters are not supported"
  else
    match t with
    | .Class path =>
        if path.isFlagsWrapper then
          Except.ok ⟨t, .BuiltInNumeric "unsigned int", .QFlagsToUInt⟩
        else
          let isConst := match role with
            | .NotReturnType => true
            | .ReturnType => false
          Except.ok ⟨t, .PointerLike .Pointer isConst (.Class path), .ValueToPointer⟩
    | .PointerLike .Reference isConst (.Class path) =>
        Except.ok ⟨t, .PointerLike .Pointer isConst (.Class path), .ReferenceToPointer⟩
    | _ => Except.ok ⟨t, t, .NoChange⟩

/-! ## Resolvability checker (`rust_name_resolver.rs`)

The pass walks every type mentioned by a pending item and succeeds only
if every class/enum reference names a registered path of the right kind
and no template parameter occurs.  The database item shapes below follow
the construction in the in-tree test `it_should_check_functions`; the
variants of `CppItemData` not exercised by the resolver are omitted. -/

namespace Resolver

inductive CppTypeDataKind where
  | Class : CppTypeDataKind
  | Enum : CppTypeDataKind
  deriving DecidableEq

def CppTypeDataKind.isClass : CppTypeDataKind → Bool
  | .Class => true
  | .Enum => false

def CppTypeDataKind.isEnum : CppTypeDataKind → Bool
  | .Class => false
  | .Enum => true

structure CppTypeData where
  path : CppPath
  kind : CppTypeDataKind
  doc : Option String
  isMovable : Bool
  deriving DecidableEq

structure CppFunctionArgument where
  name : String
  argumentType : CppType
  hasDefaultValue : Bool
  deriving DecidableEq

/-- The embedded `CppFunction` as constructed by the in-tree resolver test; `member`
and `operator` payloads are not read by the resolver and are modelled as
unit. -/
structure CppFunction where
  path : CppPath
  member : Option Unit
  operator : Option Unit
  returnType : CppType
  arguments : List CppFunctionArgument
  allowsVariadicArguments : Bool
  declarationCode : Option String
  doc : Option String
  deriving DecidableEq

inductive CppItemData where
  | Function (f : CppFunction) : CppItemData
  | Type (t : CppTypeData) : CppItemData
  deriving DecidableEq

def CppItemData.asTypeRef : CppItemData → Option CppTypeData
  | .Type t => Option.some t
  | _ => Option.none

inductive DatabaseItemSource where
  | ImplicitDestructor : DatabaseItemSource
  deriving DecidableEq

structure DatabaseItem where
  cppData : CppItemData
  source : DatabaseItemSource
  ffiItems : Option Unit
  rustItem : Option Unit
  deriving DecidableEq

/-- Modelled from the spec: `CppItemData::all_involved_types` (the
implementation is in the absent `cpp_function.rs`/`database.rs`) — the
types a function item mentions are its argument types and its return
type; a type declaration item mentions none. -/
def CppItemData.allInvolvedTypes : CppItemData → List CppType
  | .Function f => f.arguments.map (·.argumentType) ++ [f.returnType]
  | .Type _ => []

/-- The lookup performed by `check_type` for a `Class` reference: some
type item in the database has an equal path and class kind. -/
def classRegistered (allItems : List DatabaseItem) (path : CppPath) : Bool :=
  (allItems.filterMap (·.cppData.asTypeRef)).any
    (fun t => t.path == path && t.kind.isClass)

/-- The lookup performed by `check_type` for an `Enum` reference. -/
def enumRegistered (allItems : List DatabaseItem) (path : CppPath) : Bool :=
  (allItems.filterMap (·.cppData.asTypeRef)).any
    (fun t => t.path == path && t.kind.isEnum)

mutual

/-- The embedded `check_type` of `rust_name_resolver.rs`: a class reference must be
registered with class kind and its template arguments must be free of
template parameters; an enum reference must be registered with enum kind;
pointer-like and function-pointer types are checked recursively; a bare
template parameter is rejected. -/
def checkType (allItems : List DatabaseItem) : CppType → Except String Unit
  | .Class path =>
      if !classRegistered allItems path then
        Except.error "class not found"
      else
        match path.last.templateArguments with
        | .some args =>
            if args.containsTemplateParameter then
              Except.error "template parameters are not supported"
            else
              Except.ok ()
        | .none => Except.ok ()
  | .Enum path =>
      if !enumRegistered allItems path then
        Except.error "enum not found"
      else
        Except.ok ()
  | .PointerLike _ _ target => checkType allItems target
  | .FunctionPointer returnType arguments _ =>
      match checkType allItems returnType with
      | .error e => Except.error e
      | .ok _ => checkTypeList allItems arguments
  | .TemplateParameter _ _ _ =>
      Except.error "template parameters are not supported"
  | _ => Except.ok ()

def checkTypeList (allItems : List DatabaseItem) : CppTypeList → Except String Unit
  | .nil => Except.ok ()
  | .cons t rest =>
      match checkType allItems t with
      | .error e => Except.error e
      | .ok _ => checkTypeList allItems rest

end

/-- Helper running `check_type` over a list of involved types, stopping at
the first error (the `?` operator in the source loop). -/
def checkAllTypes (allItems : List DatabaseItem) : List CppType → Except String Unit
  | [] => Except.ok ()
  | t :: rest =>
      match checkType allItems t with
      | .error e => Except.error e
      | .ok _ => checkAllTypes allItems rest

/-- The embedded `is_cpp_item_resolvable`: every type involved in the item passes
`check_type`. -/
def isCppItemResolvable (allItems : List DatabaseItem) (item : CppItemData) :
    Except String Unit :=
  checkAllTypes allItems item.allInvolvedTypes

/-- The item loop of the resolver function `run`: items that already have a Rust
item are skipped; for the rest, a failed resolvability check is only
traced (the item is skipped), never propagated. -/
def runItems (allItems : List DatabaseItem) : List DatabaseItem → Except String Unit
  | [] => Except.ok ()
  | item :: rest =>
      if item.rustItem.isSome then
        runItems allItems rest
      else
        match isCppItemResolvable allItems item.cppData with
        | .ok _ => runItems allItems rest
        | .error _ => runItems allItems rest

/-- The embedded `run` of `rust_name_resolver.rs` over the current database. -/
def run (databaseItems : List DatabaseItem) : Except String Unit :=
  runItems databaseItems databaseItems

end Resolver

/-! ## Foreign-call function declarations

`CppFfiFunction` lives in the absent `cpp_ffi_data.rs`; the spec (section
6) describes it as a name plus ordered arguments with names and foreign
types plus a return foreign type. -/

structure CppFfiFunctionArgument where
  name : String
  argumentType : CppType
  deriving DecidableEq

/-- Modelled from the spec: a foreign-call function declaration (absent
`cpp_ffi_data.rs`) — path, ordered named arguments, return type. -/
structure CppFfiFunction where
  path : CppPath
  arguments : List CppFfiFunctionArgument
  returnType : CppType
  deriving DecidableEq

/-! ## Allocation-place passes (`type_allocation_places.rs`)

`set_allocation_places` is the authoritative pass: it overwrites the
`is_movable` flag of every class declaration from the configured
movable-types list.  `suggest_allocation_places` is the advisory pass: it
tallies, per class path, how often the class occurs behind a pointer
versus not, marks classes with virtual methods, and derives suggestion
lists without touching the database. -/

namespace Allocation

inductive CppTypeDeclarationKind where
  | Class (isMovable : Bool) : CppTypeDeclarationKind
  | Enum : CppTypeDeclarationKind
  deriving DecidableEq

def CppTypeDeclarationKind.isClass : CppTypeDeclarationKind → Bool
  | .Class _ => true
  | .Enum => false

structure CppTypeDeclaration where
  path : CppPath
  kind : CppTypeDeclarationKind
  deriving DecidableEq

/-- Modelled from the spec: the ritual-side `CppFunction`
(`cpp_function.rs` is absent) restricted to what the allocation passes
read — the class a member function is attached to (`class_type`), its
virtual flag, and its argument/return types. -/
structure CppFunction where
  classType : Option CppPath
  isVirtual : Bool
  arguments : List CppType
  returnType : CppType
  deriving DecidableEq

/-- Modelled from the spec: `CppFunction::all_involved_types` — the
argument types and the return type (the per-type recursion into pointer
targets and template arguments is done by the tallying `check_type`). -/
def CppFunction.allInvolvedTypes (f : CppFunction) : List CppType :=
  f.arguments ++ [f.returnType]

inductive CppItemData where
  | Type (t : CppTypeDeclaration) : CppItemData
  | Function (f : CppFunction) : CppItemData
  deriving DecidableEq

def CppItemData.asTypeRef : CppItemData → Option CppTypeDeclaration
  | .Type t => Option.some t
  | _ => Option.none

def CppItemData.asFunctionRef : CppItemData → Option CppFunction
  | .Function f => Option.some f
  | _ => Option.none

/-- Modelled from the spec: a database item owns the source description,
an optional list of generated foreign-call declarations and an optional
generated target-language item (`database.rs` is absent; the
target-language payload is irrelevant to these passes and kept abstract
as `Unit`). -/
structure CppDatabaseItem where
  cppData : CppItemData
  ffiItems : Option (List CppFfiFunction)
  rustItem : Option Unit
  deriving DecidableEq

structure Database where
  cppItems : List CppDatabaseItem
  deriving DecidableEq

/-- Modelled from the spec: the configuration consumed by the passes — an
explicit set of paths designated movable. -/
structure Config where
  movableTypes : List CppPath
  deriving DecidableEq

structure ProcessorData where
  currentDatabase : Database
  config : Config
  deriving DecidableEq

/-- The embedded `set_allocation_places`: for every class declaration, the movable
flag becomes exactly "the path occurs in the configured movable-types
list"; every other item is untouched. -/
def setAllocationPlaces (data : ProcessorData) : ProcessorData :=
  { data with
    currentDatabase :=
      { cppItems := data.currentDatabase.cppItems.map (fun item =>
          match item.cppData with
          | .Type type1 =>
              match type1.kind with
              | .Class _ =>
                  { item with
                    cppData := .Type { type1 with
                      kind := .Class (data.config.movableTypes.any (fun p => p == type1.path)) } }
              | _ => item
          | _ => item) } }

structure TypeStats where
  hasVirtualMethods : Bool := false
  pointersCount : Nat := 0
  notPointersCount : Nat := 0
  deriving DecidableEq

/-- The per-path statistics map (`HashMap<CppPath, TypeStats>` in the
source, embedded as an insertion-ordered association list). -/
abbrev StatsMap := List (CppPath × TypeStats)

def StatsMap.containsKey (m : StatsMap) (p : CppPath) : Bool :=
  m.any (fun e => e.1 == p)

def StatsMap.updateEntry (m : StatsMap) (p : CppPath) (f : TypeStats → TypeStats) : StatsMap :=
  m.map (fun e => if e.1 == p then (e.1, f e.2) else e)

def StatsMap.getEntry (m : StatsMap) (p : CppPath) : Option TypeStats :=
  (m.find? (fun e => e.1 == p)).map (·.2)

mutual

/-- The tallying `check_type` of `suggest_allocation_places`: a class
occurrence bumps its pointer/non-pointer counter (creating a default
entry first) and recurses into the template arguments of the last path
item (not behind a pointer); a pointer-like type recurses into its
target, behind a pointer exactly when the kind is `Pointer`. -/
def checkType (t : CppType) (isBehindPointer : Bool) (m : StatsMap) : StatsMap :=
  match t with
  | .Class path =>
      let m1 := if m.containsKey path then m else m ++ [(path, {})]
      let m2 :=
        if isBehindPointer then
          m1.updateEntry path (fun s => { s with pointersCount := s.pointersCount + 1 })
        else
          m1.updateEntry path (fun s => { s with notPointersCount := s.notPointersCount + 1 })
      match path with
      | .mk items => checkLastItemArgs items m2
  | .PointerLike kind _ target => checkType target (kind == .Pointer) m
  | _ => m

/-- Recursion of `check_type` into `path.last().template_arguments`,
phrased structurally over the item list (equivalent to taking the last
item in the path). -/
def checkLastItemArgs (items : CppPathItemList) (m : StatsMap) : StatsMap :=
  match items with
  | .nil => m
  | .cons i .nil =>
      match i with
      | .mk _ .none => m
      | .mk _ (.some args) => checkTypeListStats args m
  | .cons _ (CppPathItemList.cons i rest) => checkLastItemArgs (.cons i rest) m

def checkTypeListStats (l : CppTypeList) (m : StatsMap) : StatsMap :=
  match l with
  | .nil => m
  | .cons a rest => checkTypeListStats rest (checkType a false m)

end

/-- The virtual-method marking loop: for every type declaration with some
virtual function attached to its path, ensure a stats entry exists and
set its virtual flag. -/
def markVirtualMethods (data : ProcessorData) (m : StatsMap) : StatsMap :=
  data.currentDatabase.cppItems.foldl
    (fun m item =>
      match item.cppData.asTypeRef with
      | Option.none => m
      | Option.some type1 =>
          if (data.currentDatabase.cppItems.filterMap (·.cppData.asFunctionRef)).any
              (fun f => f.classType == Option.some type1.path && f.isVirtual) then
            let m1 := if m.containsKey type1.path then m else m ++ [(type1.path, {})]
            m1.updateEntry type1.path (fun s => { s with hasVirtualMethods := true })
          else m)
    m

/-- The tallying loop over the involved types of every function. -/
def tallyFunctions (data : ProcessorData) (m : StatsMap) : StatsMap :=
  (data.currentDatabase.cppItems.filterMap (·.cppData.asFunctionRef)).foldl
    (fun m f => f.allInvolvedTypes.foldl (fun m t => checkType t false m) m)
    m

def computeStats (data : ProcessorData) : StatsMap :=
  tallyFunctions data (markVirtualMethods data [])

/-- The indeterminate-classification diagnostics emitted at trace detail
by `suggest_allocation_places`. -/
inductive AllocationTrace where
  | notEnoughData (path : CppPath) : AllocationTrace
  | manyNonPointers (path : CppPath) : AllocationTrace
  | noStats (path : CppPath) : AllocationTrace
  deriving DecidableEq

/-- The `suggest_movable_types` computation for one class path, paired
with the trace diagnostics it emits.  Virtual methods force `false`; zero
pointer occurrences force `true`; otherwise the value is `false`, with an
indeterminate diagnostic when the sample count is below 5 or the
non-pointer fraction exceeds 0.3 (the source compares `f32` ratios
against `0.3`; both operands are exact small integers here, rendered as
the equivalent exact comparison `10 * notPointers > 3 * total`). -/
def suggestMovableDecision (dataMap : StatsMap) (name : CppPath) :
    Bool × List AllocationTrace :=
  match dataMap.getEntry name with
  | Option.some stats =>
      if stats.hasVirtualMethods then (false, [])
      else if stats.pointersCount == 0 then (true, [])
      else
        let minSafeDataCount := 5
        let traces :=
          if stats.pointersCount + stats.notPointersCount < minSafeDataCount then
            [AllocationTrace.notEnoughData name]
          else if 10 * stats.notPointersCount >
              3 * (stats.pointersCount + stats.notPointersCount) then
            [AllocationTrace.manyNonPointers name]
          else []
        (false, traces)
  | Option.none => (false, [AllocationTrace.noStats name])

structure SuggestResult where
  movableTypes : List CppPath
  immovableTypes : List CppPath
  traces : List AllocationTrace
  deriving DecidableEq

/-- One step of the classification loop of `suggest_allocation_places`:
a class declaration not already configured movable is pushed onto the
movable or immovable suggestion list according to
`suggest_movable_types`, together with any diagnostics. -/
def classifyStep (data : ProcessorData) (dataMap : StatsMap)
    (acc : SuggestResult) (item : CppDatabaseItem) : SuggestResult :=
  match item.cppData.asTypeRef with
  | Option.none => acc
  | Option.some type1 =>
      if !type1.kind.isClass then acc
      else if data.config.movableTypes.any (fun n => n == type1.path) then acc
      else
        let decision := suggestMovableDecision dataMap type1.path
        if decision.1 then
          { acc with
            movableTypes := acc.movableTypes ++ [type1.path]
            traces := acc.traces ++ decision.2 }
        else
          { acc with
            immovableTypes := acc.immovableTypes ++ [type1.path]
            traces := acc.traces ++ decision.2 }

/-- The classification loop of `suggest_allocation_places` over every
database item. -/
def classifyTypes (data : ProcessorData) (dataMap : StatsMap) : SuggestResult :=
  data.currentDatabase.cppItems.foldl (classifyStep data dataMap) ⟨[], [], []⟩

/-- The advisory pass as a whole: compute statistics, classify, report.
It returns its suggestion lists and diagnostics; the database inside
`ProcessorData` is only read. -/
def suggestAllocationPlaces (data : ProcessorData) : SuggestResult :=
  classifyTypes data (computeStats data)

/-- The embedded `suggest_allocation_places` in its pass signature: the Rust function
receives the processor state by mutable reference but calls only the
read-only accessors (`cpp_items`, never `cpp_items_mut`), so as a state
transformer it returns the state unchanged next to its result. -/
def suggestAllocationPlacesPass (data : ProcessorData) :
    ProcessorData × SuggestResult :=
  (data, suggestAllocationPlaces data)

end Allocation

/-! ## Rust type model (`rust_type.rs`, absent from the snapshot)

The shapes below are fixed by their pervasive use in `rust_info.rs` and
`rust_code_generator.rs`; the handful of helper methods
(`full_name`, `lifetime`, `is_const`, …) are modelled from the spec and
marked as such.  As with the C++ model, the `Vec`/`Option` containers in
the recursive knot become the dedicated mutual types `RustTypeList` and
`RustTypeArgs`. -/

structure RustPath where
  parts : List String
  deriving DecidableEq

def RustPath.last (p : RustPath) : String :=
  p.parts.getLastD ""

/-- Modelled from the spec: a path renders as its identifiers joined by
the separator of the target language (the crate-relative shortening taken by
the real implementation does not matter to any property proved here). -/
def RustPath.fullName (p : RustPath) (currentCrate : Option String) : String :=
  let _ := currentCrate
  String.intercalate "::" p.parts

/-- Modelled from the spec: the parent path drops the final identifier. -/
def RustPath.parent (p : RustPath) : Option RustPath :=
  match p.parts with
  | [] => Option.none
  | _ => Option.some ⟨p.parts.dropLast⟩

/-- Modelled from the spec: a path is a child of another when dropping
its final identifier yields the other path. -/
def RustPath.isChildOf (p parent : RustPath) : Bool :=
  !p.parts.isEmpty && p.parts.dropLast == parent.parts

mutual

inductive RustType where
  | EmptyTuple : RustType
  | PointerLike (kind : RustPointerLikeTypeKind) (isConst : Bool) (target : RustType) : RustType
  | Common (path : RustPath) (genericArguments : RustTypeArgs) : RustType
  | FunctionPointer (returnType : RustType) (arguments : RustTypeList) : RustType
  deriving DecidableEq

inductive RustPointerLikeTypeKind where
  | Pointer : RustPointerLikeTypeKind
  | Reference (lifetime : Option String) : RustPointerLikeTypeKind
  deriving DecidableEq

inductive RustTypeList where
  | nil : RustTypeList
  | cons (head : RustType) (tail : RustTypeList) : RustTypeList
  deriving DecidableEq

inductive RustTypeArgs where
  | none : RustTypeArgs
  | some (args : RustTypeList) : RustTypeArgs
  deriving DecidableEq

end

def RustTypeList.toList : RustTypeList → List RustType
  | .nil => []
  | .cons t rest => t :: rest.toList

def RustTypeList.length : RustTypeList → Nat
  | .nil => 0
  | .cons _ rest => rest.length + 1

inductive RustToFfiTypeConversion where
  | None : RustToFfiTypeConversion
  | RefToPtr : RustToFfiTypeConversion
  | OptionRefToPtr : RustToFfiTypeConversion
  | ValueToPtr : RustToFfiTypeConversion
  | CppBoxToPtr : RustToFfiTypeConversion
  | QFlagsToUInt : RustToFfiTypeConversion
  deriving DecidableEq

/-- The API-type/FFI-type/conversion triple attached to every
target-facing value (`CompleteType` in the generator, `RustFinalType` in
`rust_info`). -/
structure RustFinalType where
  rustApiType : RustType
  rustFfiType : RustType
  rustApiToFfiConversion : RustToFfiTypeConversion
  deriving DecidableEq

/-! ## Rust item database (`rust_info.rs`) -/

structure RustEnumValueDoc where
  extraDoc : Option String
  cppPath : CppPath
  cppDoc : Option String
  deriving DecidableEq

structure RustEnumValue where
  path : RustPath
  value : Int
  doc : RustEnumValueDoc
  deriving DecidableEq

structure RustQtSlotWrapper where
  arguments : List RustFinalType
  receiverId : String
  callbackPath : RustPath
  cppArguments : List CppType
  deriving DecidableEq

inductive RustWrapperTypeKind where
  | EnumWrapper : RustWrapperTypeKind
  | ImmovableClassWrapper (rawTypePath : RustPath) : RustWrapperTypeKind
  | MovableClassWrapper (sizedTypePath : RustPath) : RustWrapperTypeKind
  deriving DecidableEq

structure RustRawQtSlotWrapperDocData where
  publicWrapperPath : RustPath
  rustArguments : List RustFinalType
  cppArguments : List CppType
  deriving DecidableEq

/-- The embedded `CppTypeDoc` (absent `cpp_data.rs`) carries only documentation text;
it is modelled as a string. -/
structure RustWrapperTypeDocData where
  cppPath : CppPath
  cppDoc : Option String
  rawQtSlotWrapper : Option RustRawQtSlotWrapperDocData
  deriving DecidableEq

structure RustWrapperType where
  docData : RustWrapperTypeDocData
  kind : RustWrapperTypeKind
  deriving DecidableEq

structure RustFfiClassTypeDoc where
  cppPath : CppPath
  publicRustPath : RustPath
  deriving DecidableEq

inductive RustStructKind where
  | WrapperType (w : RustWrapperType) : RustStructKind
  | QtSlotWrapper (w : RustQtSlotWrapper) : RustStructKind
  | FfiClassType (d : RustFfiClassTypeDoc) : RustStructKind
  | SizedType (p : CppPath) : RustStructKind
  deriving DecidableEq

structure RustStruct where
  extraDoc : Option String
  path : RustPath
  kind : RustStructKind
  isPublic : Bool
  deriving DecidableEq

/-- Location of a Rust method (`RustFunctionScope` in `rust_info.rs`). -/
inductive RustFunctionScope where
  | Impl (targetType : RustType) : RustFunctionScope
  | TraitImpl : RustFunctionScope
  | Free : RustFunctionScope
  deriving DecidableEq

structure RustFunctionArgument where
  argumentType : RustFinalType
  name : String
  ffiIndex : Nat
  deriving DecidableEq

inductive RustQtReceiverType where
  | Signal : RustQtReceiverType
  | Slot : RustQtReceiverType
  deriving DecidableEq

structure RustFfiWrapperData where
  cppFfiFunction : CppFfiFunction
  ffiFunctionPath : RustPath
  returnTypeFfiIndex : Option Nat
  deriving DecidableEq

inductive RustFunctionKind where
  | FfiWrapper (data : RustFfiWrapperData) : RustFunctionKind
  | CppDeletableImpl (deleter : RustPath) : RustFunctionKind
  | SignalOrSlotGetter (typePath : RustPath) (cppPath : CppPath)
      (receiverType : RustQtReceiverType) (receiverId : String)
      (arguments : List RustType) : RustFunctionKind
  deriving DecidableEq

/-- A public API method.  `rust_info.rs` stores `is_public` while the
generator in the same snapshot matches on a `scope`; both are kept so
so that the code of each file embeds verbatim. -/
structure RustFunction where
  isPublic : Bool
  isUnsafe : Bool
  path : RustPath
  scope : RustFunctionScope
  kind : RustFunctionKind
  arguments : List RustFunctionArgument
  returnType : RustFinalType
  extraDoc : Option String
  deriving DecidableEq

structure RustTraitAssociatedType where
  name : String
  value : RustType
  deriving DecidableEq

structure RustTraitImpl where
  parentPath : RustPath
  targetType : RustType
  traitType : RustType
  associatedTypes : List RustTraitAssociatedType
  functions : List RustFunction
  deriving DecidableEq

structure RustModuleDoc where
  extraDoc : Option String
  cppPath : Option CppPath
  deriving DecidableEq

inductive RustModuleKind where
  | CrateRoot : RustModuleKind
  | Ffi : RustModuleKind
  | SizedTypes : RustModuleKind
  | Normal : RustModuleKind
  deriving DecidableEq

structure RustModule where
  path : RustPath
  doc : RustModuleDoc
  kind : RustModuleKind
  deriving DecidableEq

structure RustFFIArgument where
  name : String
  argumentType : RustType
  deriving DecidableEq

structure RustFFIFunction where
  returnType : RustType
  path : RustPath
  arguments : List RustFFIArgument
  deriving DecidableEq

inductive RustItemKind where
  | Module (m : RustModule) : RustItemKind
  | Struct (s : RustStruct) : RustItemKind
  | EnumValue (v : RustEnumValue) : RustItemKind
  | TraitImpl (t : RustTraitImpl) : RustItemKind
  | FfiFunction (f : RustFFIFunction) : RustItemKind
  | Function (f : RustFunction) : RustItemKind
  deriving DecidableEq

structure RustDatabaseItem where
  kind : RustItemKind
  cppItemIndex : Option Nat
  deriving DecidableEq

/-- The embedded `RustDatabaseItem::path`: every item kind exposes its own path except
a trait implementation, which has none. -/
def RustDatabaseItem.path (item : RustDatabaseItem) : Option RustPath :=
  match item.kind with
  | .Module data => Option.some data.path
  | .Struct data => Option.some data.path
  | .EnumValue data => Option.some data.path
  | .Function data => Option.some data.path
  | .FfiFunction data => Option.some data.path
  | .TraitImpl _ => Option.none

/-- The embedded `RustDatabaseItem::is_child_of`: a trait impl is a child of its
recorded parent path; any other item is a child of the parent of its own path.  (The `expect` in the source is unreachable: every non-trait-impl
kind carries a path; the impossible branch returns `false` here.) -/
def RustDatabaseItem.isChildOf (item : RustDatabaseItem) (parent : RustPath) : Bool :=
  match item.kind with
  | .TraitImpl traitImpl => traitImpl.parentPath == parent
  | _ =>
      match item.path with
      | Option.some p => p.isChildOf parent
      | Option.none => false

structure RustDatabase where
  items : List RustDatabaseItem
  deriving DecidableEq

/-- The embedded `RustDatabase::find`: the first item whose own path equals the given
path. -/
def RustDatabase.find (db : RustDatabase) (path : RustPath) : Option RustDatabaseItem :=
  db.items.find? (fun item => item.path == Option.some path)

/-- The embedded `RustDatabase::children`: all items that are children of the given
path. -/
def RustDatabase.children (db : RustDatabase) (path : RustPath) : List RustDatabaseItem :=
  db.items.filter (fun item => item.isChildOf path)

/-! ## Helper methods of `RustType` (absent `rust_type.rs`) -/

/-- Modelled from the spec: the named lifetime of a reference type, if
any. -/
def RustType.lifetime : RustType → Option String
  | .PointerLike (.Reference lt) _ _ => lt
  | _ => Option.none

/-- Modelled from the spec: constness of a pointer-like type; asking any
other type is an error. -/
def RustType.isConstFlag : RustType → Except String Bool
  | .PointerLike _ isConst _ => Except.ok isConst
  | _ => Except.error "is_const: pointer-like type expected"

/-- Modelled from the spec: `last_is_const` — the constness of the
pointer-like layer of the type (used on reference API types). -/
def RustType.lastIsConst : RustType → Except String Bool
  | .PointerLike _ isConst _ => Except.ok isConst
  | _ => Except.error "last_is_const: pointer-like type expected"

/-- Modelled from the spec: replace the constness of a pointer-like
type. -/
def RustType.setConst (b : Bool) : RustType → Except String RustType
  | .PointerLike kind _ target => Except.ok (.PointerLike kind b target)
  | _ => Except.error "set_const: pointer-like type expected"

/-- Modelled from the spec: attach a named lifetime to a reference
type; other types are returned unchanged. -/
def RustType.withLifetime (t : RustType) (lifetime : String) : RustType :=
  match t with
  | .PointerLike (.Reference _) isConst target =>
      .PointerLike (.Reference (Option.some lifetime)) isConst target
  | t => t

/-! ## Rust code generator (`rust_code_generator.rs`) -/

namespace RustCodeGenerator

mutual

/-- The embedded `rust_type_to_code`: renders a Rust type as source text. -/
def rustTypeToCode (rustType : RustType) (currentCrate : String) : String :=
  match rustType with
  | .EmptyTuple => "()"
  | .PointerLike kind isConst target =>
      let targetCode := rustTypeToCode target currentCrate
      (match kind with
       | .Pointer =>
           if isConst then "*const " ++ targetCode else "*mut " ++ targetCode
       | .Reference lifetime =>
           let lifetimeText := match lifetime with
             | Option.some l => "\x27" ++ l ++ " "
             | Option.none => ""
           if isConst then "&" ++ lifetimeText ++ targetCode
           else "&" ++ lifetimeText ++ "mut " ++ targetCode)
  | .Common path genericArguments =>
      let code := path.fullName (Option.some currentCrate)
      (match genericArguments with
       | .none => code
       | .some args =>
           code ++ "<" ++ String.intercalate ", " (rustTypeListToCode args currentCrate) ++ ">")
  | .FunctionPointer returnType arguments =>
      "extern \"C\" fn(" ++ String.intercalate ", " (rustTypeListToCode arguments currentCrate)
        ++ ")" ++
        (match returnType with
         | .EmptyTuple => ""
         | _ => " -> " ++ rustTypeToCode returnType currentCrate)

def rustTypeListToCode (l : RustTypeList) (currentCrate : String) : List String :=
  match l with
  | .nil => []
  | .cons t rest => rustTypeToCode t currentCrate :: rustTypeListToCode rest currentCrate

end

/-- One line of `format_doc`. -/
def formatLine (x : String) : String :=
  let line := "/// " ++ x ++ "\n"
  if line.startsWith "///     " then line.replace "///     " "/// &#32;   " else line

/-- The embedded `format_doc`: markdown content as documentation comments. -/
def formatDoc (doc : String) : String :=
  if doc.isEmpty then "" else String.join ((doc.splitOn "\n").map formatLine)

/-- Modelled from the spec: documentation scraping/formatting
(`doc_formatter`) is out of scope for the verified core; the formatter is
modelled as producing empty text. -/
def functionDoc (func : RustFunction) : String :=
  let _ := func
  ""

/-- The embedded `convert_type_from_ffi`: wraps an expression of the FFI type to
convert it to the API type.  Faithful rendering of the source match,
including the abort-on-null `.expect` for `RefToPtr` and its absence for
`OptionRefToPtr`. -/
def convertTypeFromFfi (currentCrate : String) (type1 : RustFinalType)
    (expression : String) (inUnsafeContext useFfiResultVar : Bool) :
    Except String String :=
  let (unsafeStart, unsafeEnd) :=
    if inUnsafeContext then ("", "") else ("unsafe \x7b ", " \x7d")
  if type1.rustApiToFfiConversion = RustToFfiTypeConversion.None then
    Except.ok expression
  else
    let (code1, sourceExpr) :=
      if useFfiResultVar then
        ("let ffi_result = " ++ expression ++ ";\n", "ffi_result")
      else
        ("", expression)
    match type1.rustApiToFfiConversion with
    | .None => Except.error "unreachable"
    | .RefToPtr | .OptionRefToPtr => do
        let apiIsConst ←
          if type1.rustApiToFfiConversion = RustToFfiTypeConversion.OptionRefToPtr then
            match type1.rustApiType with
            | RustType.Common _ genericArguments =>
                (match genericArguments with
                 | RustTypeArgs.none => Except.error "Option with no generic_arguments"
                 | RustTypeArgs.some RustTypeList.nil =>
                     Except.error "Option with invalid args count"
                 | RustTypeArgs.some (RustTypeList.cons arg rest) =>
                     if rest.length ≠ 0 then Except.error "Option with invalid args count"
                     else arg.lastIsConst)
            | _ => Except.error "Option type expected"
          else
            type1.rustApiType.lastIsConst
        let unwrapCode := match type1.rustApiToFfiConversion with
          | .RefToPtr => ".expect(\"Attempted to convert null pointer to reference\")"
          | .OptionRefToPtr => ""
          | _ => ""
        Except.ok (code1 ++ unsafeStart ++ sourceExpr ++ "."
          ++ (if apiIsConst then "as_ref" else "as_mut") ++ "()" ++ unsafeEnd ++ unwrapCode)
    | .ValueToPtr =>
        Except.ok (code1 ++ unsafeStart ++ "*" ++ sourceExpr ++ unsafeEnd)
    | .CppBoxToPtr =>
        Except.ok (code1 ++ unsafeStart ++ "::cpp_utils::CppBox::new(" ++ sourceExpr ++ ")"
          ++ unsafeEnd)
    | .QFlagsToUInt =>
        match type1.rustApiType with
        | RustType.Common path _ =>
            Except.ok (code1 ++ rustTypeToCode (RustType.Common path RustTypeArgs.none) currentCrate
              ++ "::from_int(" ++ sourceExpr ++ " as i32)")
        | _ => Except.error "unreachable: QFlags type expected"

/-- The loop of `generate_ffi_call` that picks the name of the return-value
local: `object`, then `object2`, `object3`, … until no argument name
collides.  The fuel bound (one more than the number of argument names)
suffices because each collision consumes a distinct argument name. -/
def pickReturnVarNameAux (argNames : List String) : Nat → String → Nat → String
  | 0, current, _ => current
  | Nat.succ fuel, current, ii =>
      if argNames.any (fun x => x == current) then
        pickReturnVarNameAux argNames fuel ("object" ++ toString (ii + 1)) (ii + 1)
      else current

def pickReturnVarName (argNames : List String) : String :=
  pickReturnVarNameAux argNames (argNames.length + 1) "object" 1

/-- The body of the argument loop of `generate_ffi_call`: asserts the
FFI index is in range, renders the "out of API form" conversion of one
argument, and stores it at its FFI index. -/
def processFfiArg (currentCrate : String) (finalArgs : List (Option String))
    (arg : RustFunctionArgument) : Except String (List (Option String)) := do
  if arg.ffiIndex ≥ finalArgs.length then
    Except.error "assertion failed: arg.ffi_index < final_args.len()"
  else
    let code ← (match arg.argumentType.rustApiToFfiConversion with
      | RustToFfiTypeConversion.None => Except.ok arg.name
      | RustToFfiTypeConversion.OptionRefToPtr =>
          Except.error "OptionRefToPtr is not supported here yet"
      | RustToFfiTypeConversion.RefToPtr => do
          let apiConst ← arg.argumentType.rustApiType.isConstFlag
          let ffiConst ← arg.argumentType.rustFfiType.isConstFlag
          if apiConst && !ffiConst then
            let intermediateType ← arg.argumentType.rustFfiType.setConst true
            Except.ok (arg.name ++ " as " ++ rustTypeToCode intermediateType currentCrate
              ++ " as " ++ rustTypeToCode arg.argumentType.rustFfiType currentCrate)
          else
            Except.ok (arg.name ++ " as "
              ++ rustTypeToCode arg.argumentType.rustFfiType currentCrate)
      | RustToFfiTypeConversion.ValueToPtr | RustToFfiTypeConversion.CppBoxToPtr => do
          let isConst ← (match arg.argumentType.rustFfiType with
            | RustType.PointerLike _ isConst _ => Except.ok isConst
            | _ => Except.error "void is not expected here at all!")
          if arg.argumentType.rustApiToFfiConversion
              = RustToFfiTypeConversion.CppBoxToPtr then
            Except.ok (arg.name ++ "." ++ (if isConst then "as_ptr" else "as_mut_ptr")
              ++ "()")
          else
            Except.ok ((if isConst then "&" else "&mut ") ++ arg.name ++ " as "
              ++ rustTypeToCode arg.argumentType.rustFfiType currentCrate)
      | RustToFfiTypeConversion.QFlagsToUInt =>
          Except.ok (arg.name ++ ".to_int() as ::libc::c_uint"))
    Except.ok (finalArgs.set arg.ffiIndex (Option.some code))

/-- The unwrapping of one slot after the argument loop: every FFI slot
must have received a value. -/
def requireFfiArg : Option String → Except String String
  | Option.some s => Except.ok s
  | Option.none => Except.error "ffi argument is missing"

/-- The `struct_name` computation in the out-location protocol of
`generate_ffi_call`: for an owning-handle (`CppBox`) return conversion, the type of
the local is the generic argument of the handle (the target aggregate); for
every other conversion it is the API type itself. -/
def outSlotStructName (currentCrate : String) (returnType : RustFinalType) :
    Except String String :=
  if returnType.rustApiToFfiConversion = RustToFfiTypeConversion.CppBoxToPtr then
    match returnType.rustApiType with
    | RustType.Common _ genericArguments =>
        (match genericArguments with
         | RustTypeArgs.none => Except.error "CppBox must have generic_arguments"
         | RustTypeArgs.some RustTypeList.nil =>
             Except.error "CppBox must have non-empty generic_arguments"
         | RustTypeArgs.some (RustTypeList.cons arg _) =>
             Except.ok (rustTypeToCode arg currentCrate))
    | _ => Except.error "CppBox type expected"
  else
    Except.ok (rustTypeToCode returnType.rustApiType currentCrate)

/-- The embedded `generate_ffi_call`: builds the wrapper-function body — converted
arguments placed at their FFI indices, the out-location protocol when
`return_type_ffi_index` designates a slot, the FFI invocation, and the
return conversion for directly returned values. -/
def generateFfiCall (currentCrate : String) (arguments : List RustFunctionArgument)
    (returnType : RustFinalType) (wrapperData : RustFfiWrapperData)
    (inUnsafeContext : Bool) : Except String String := do
  let (unsafeStart, unsafeEnd) :=
    if inUnsafeContext then ("", "") else ("unsafe \x7b ", " \x7d")
  let finalArgsInit : List (Option String) :=
    List.replicate wrapperData.cppFfiFunction.arguments.length Option.none
  let finalArgs0 ← arguments.foldlM (processFfiArg currentCrate) finalArgsInit
  let (declPart, finalArgs1, maybeResultVarName) ←
    (match wrapperData.returnTypeFfiIndex with
     | Option.some i => do
        let returnVarName := pickReturnVarName (arguments.map (·.name))
        let structName ← outSlotStructName currentCrate returnType
        let declPart := "\x7b\nlet mut " ++ returnVarName ++ ": " ++ structName ++ " = "
          ++ unsafeStart ++ "::cpp_utils::new_uninitialized::NewUninitialized::new_uninitialized()"
          ++ unsafeEnd ++ ";\n"
        Except.ok (declPart,
          finalArgs0.set i (Option.some ("&mut " ++ returnVarName)),
          Option.some returnVarName)
     | Option.none => Except.ok ("", finalArgs0, (Option.none : Option String)))
  let finalArgsStrs ← finalArgs1.mapM requireFfiArg
  let callPart := unsafeStart
    ++ wrapperData.ffiFunctionPath.fullName (Option.some currentCrate)
    ++ "(" ++ String.intercalate ", " finalArgsStrs ++ ")"
    ++ (if maybeResultVarName.isSome then ";" else "") ++ unsafeEnd
  let tailPart := match maybeResultVarName with
    | Option.some name => name ++ "\n\x7d"
    | Option.none => ""
  let code := declPart ++ callPart ++ tailPart
  match maybeResultVarName with
  | Option.none => convertTypeFromFfi currentCrate returnType code inUnsafeContext true
  | Option.some _ => Except.ok code

/-- The embedded `arg_texts`: renders the declaration of each wrapper-function
argument; a malformed receiver type is a fatal contract violation (a
panic in the source, an error here). -/
def argTexts (currentCrate : String) (args : List RustFunctionArgument)
    (lifetime : Option String) : Except String (List String) :=
  args.mapM (fun arg =>
    if arg.name == "self" then
      let selfType := match lifetime with
        | Option.some lt => arg.argumentType.rustApiType.withLifetime lt
        | Option.none => arg.argumentType.rustApiType
      match selfType with
      | RustType.Common _ _ => Except.ok "self"
      | RustType.PointerLike kind isConst _ =>
          (match kind with
           | RustPointerLikeTypeKind.Reference lt =>
               let maybeMut := if isConst then "" else "mut "
               (match lt with
                | Option.some l => Except.ok ("&\x27" ++ l ++ " " ++ maybeMut ++ "self")
                | Option.none => Except.ok ("&" ++ maybeMut ++ "self"))
           | _ => Except.error "invalid self argument type (indirection)")
      | _ => Except.error "invalid self argument type (not Common)"
    else
      let maybeMutDeclaration :=
        match arg.argumentType.rustApiType with
        | RustType.Common _ _ =>
            if arg.argumentType.rustApiToFfiConversion
                = RustToFfiTypeConversion.ValueToPtr then
              match arg.argumentType.rustFfiType with
              | RustType.PointerLike _ isConst _ => if !isConst then "mut " else ""
              | _ => ""
            else ""
        | _ => ""
      let typeCode := match lifetime with
        | Option.some lt =>
            rustTypeToCode (arg.argumentType.rustApiType.withLifetime lt) currentCrate
        | Option.none => rustTypeToCode arg.argumentType.rustApiType currentCrate
      Except.ok (maybeMutDeclaration ++ arg.name ++ ": " ++ typeCode))

/-- The lifetime collection of `generate_rust_final_function`: the
lifetimes of the argument API types, in argument order (the return type
is not consulted). -/
def functionLifetimes (func : RustFunction) : List String :=
  func.arguments.filterMap (fun x => x.argumentType.rustApiType.lifetime)

/-- The `lifetimes_text` rendering of `generate_rust_final_function`. -/
def renderLifetimes (allLifetimes : List String) : String :=
  if allLifetimes.isEmpty then ""
  else "<" ++ String.intercalate ", " (allLifetimes.map (fun x => "\x27" ++ x)) ++ ">"

/-- The embedded `generate_rust_final_function`: the complete source text of one Rust
wrapper function. -/
def generateRustFinalFunction (currentCrate : String) (func : RustFunction) :
    Except String String := do
  let maybePub := match func.scope with
    | RustFunctionScope.TraitImpl => ""
    | _ => "pub "
  let maybeUnsafe := if func.isUnsafe then "unsafe " else ""
  let body ← match func.kind with
    | RustFunctionKind.FfiWrapper data =>
        generateFfiCall currentCrate func.arguments func.returnType data func.isUnsafe
    | RustFunctionKind.CppDeletableImpl _ => Except.error "unimplemented: CppDeletableImpl"
    | RustFunctionKind.SignalOrSlotGetter _ _ _ _ _ =>
        Except.error "unimplemented: SignalOrSlotGetter"
  let returnTypeForSignature :=
    if func.returnType.rustApiType = RustType.EmptyTuple then ""
    else " -> " ++ rustTypeToCode func.returnType.rustApiType currentCrate
  let lifetimesText := renderLifetimes (functionLifetimes func)
  let args ← argTexts currentCrate func.arguments Option.none
  Except.ok (formatDoc (functionDoc func) ++ maybePub ++ maybeUnsafe ++ "fn "
    ++ func.path.last ++ lifetimesText ++ "(" ++ String.intercalate ", " args ++ ")"
    ++ returnTypeForSignature ++ " \x7b\n" ++ body ++ "\x7d\n\n")

end RustCodeGenerator

/-! ## Concrete instances used by the counterexamples and witnesses -/

/-- A one-class, one-function database: class `C` occurs exactly once,
behind a pointer, in the argument list of the only function. -/
def c2Path : CppPath := CppPath.fromName "C"

def c2Data : Allocation.ProcessorData :=
  ⟨⟨[⟨.Type ⟨c2Path, .Class false⟩, Option.none, Option.none⟩,
     ⟨.Function ⟨Option.none, false, [.PointerLike .Pointer false (.Class c2Path)], .Void⟩,
       Option.none, Option.none⟩]⟩,
   ⟨[]⟩⟩

/-- A wrapper function with no arguments whose return API type is a
reference carrying the named lifetime `a`. -/
def c3Ret : RustFinalType :=
  ⟨.PointerLike (.Reference (Option.some "a")) true (.Common ⟨["crate1", "T"]⟩ .none),
   .PointerLike .Pointer true (.Common ⟨["crate1", "T"]⟩ .none), .RefToPtr⟩

def c3Wd : RustFfiWrapperData :=
  ⟨⟨CppPath.fromName "f", [], CppType.Void⟩, ⟨["crate1", "ffi", "f"]⟩, Option.none⟩

def c3Func : RustFunction :=
  ⟨true, false, ⟨["crate1", "f"]⟩, .Free, .FfiWrapper c3Wd, [], c3Ret, Option.none⟩

/-- An owning-handle (`CppBox`) return conversion whose value arrives
through the designated out-location argument slot 0. -/
def c4Ret : RustFinalType :=
  ⟨.Common ⟨["cpp_utils", "CppBox"]⟩ (.some (.cons (.Common ⟨["crate1", "X"]⟩ .none) .nil)),
   .PointerLike .Pointer false (.Common ⟨["crate1", "X"]⟩ .none), .CppBoxToPtr⟩

def c4Wd : RustFfiWrapperData :=
  ⟨⟨CppPath.fromName "f", [⟨"output", CppType.Void⟩], CppType.Void⟩,
    ⟨["crate1", "ffi", "new_x"]⟩, Option.some 0⟩

/-- The body `generate_ffi_call` produces for `c4Ret`/`c4Wd`: the local
is declared with the target type of the handle and yielded bare. -/
def c4Out : String :=
  "\x7b\nlet mut object: crate1::X = unsafe \x7b ::cpp_utils::new_uninitialized::NewUninitialized::new_uninitialized() \x7d;\nunsafe \x7b crate1::ffi::new_x(&mut object); \x7dobject\n\x7d"

/-- A value (`ValueToPtr`) return conversion through out-location slot 0,
for the witness of the amended return-slot protocol. -/
def c4ValueRet : RustFinalType :=
  ⟨.Common ⟨["crate1", "X"]⟩ .none,
   .PointerLike .Pointer false (.Common ⟨["crate1", "X"]⟩ .none), .ValueToPtr⟩

/-- A borrowed-reference return conversion (`RefToPtr`). -/
def c5RefType : RustFinalType :=
  ⟨.PointerLike (.Reference Option.none) true (.Common ⟨["crate1", "X"]⟩ .none),
   .PointerLike .Pointer true (.Common ⟨["crate1", "X"]⟩ .none), .RefToPtr⟩

/-- An optional borrowed-reference return conversion (`OptionRefToPtr`). -/
def c5OptType : RustFinalType :=
  ⟨.Common ⟨["std", "option", "Option"]⟩
      (.some (.cons (.PointerLike (.Reference Option.none) true
        (.Common ⟨["crate1", "X"]⟩ .none)) .nil)),
   .PointerLike .Pointer true (.Common ⟨["crate1", "X"]⟩ .none), .OptionRefToPtr⟩

/-- The function of the in-tree resolver test: path `foo`, no arguments,
void return. -/
def c6FuncBase : Resolver.CppFunction :=
  ⟨CppPath.fromName "foo", Option.none, Option.none, .Void, [], false, Option.none, Option.none⟩

/-- A function with two class-typed arguments, `C1` and `C2`. -/
def c6Func2 : Resolver.CppFunction :=
  { c6FuncBase with arguments :=
      [⟨"a", .Class (CppPath.fromName "C1"), false⟩,
       ⟨"b", .Class (CppPath.fromName "C2"), false⟩] }

/-- A function with the single class-typed argument `C1` (the scenario of
the in-tree resolver test). -/
def c6Func1 : Resolver.CppFunction :=
  { c6FuncBase with arguments := [⟨"a", .Class (CppPath.fromName "C1"), false⟩] }

def c6Items0 : List Resolver.DatabaseItem :=
  [⟨.Function c6Func2, .ImplicitDestructor, Option.none, Option.none⟩]

def c6ClassData : Resolver.CppTypeData :=
  ⟨CppPath.fromName "C1", .Class, Option.none, false⟩

def c6ClassItem : Resolver.DatabaseItem :=
  ⟨.Type c6ClassData, .ImplicitDestructor, Option.none, Option.none⟩

def c6Items1 : List Resolver.DatabaseItem := c6Items0 ++ [c6ClassItem]

def c6Items0Single : List Resolver.DatabaseItem :=
  [⟨.Function c6Func1, .ImplicitDestructor, Option.none, Option.none⟩]

/-- A two-item database for the authoritative allocation pass: one class
declaration (initially immovable) named by the configuration and one
enum declaration. -/
def c8Data : Allocation.ProcessorData :=
  ⟨⟨[⟨.Type ⟨CppPath.fromName "QPoint", .Class false⟩, Option.none, Option.none⟩,
     ⟨.Type ⟨CppPath.fromName "E", .Enum⟩, Option.none, Option.none⟩]⟩,
   ⟨[CppPath.fromName "QPoint"]⟩⟩

/-- A target-language database with one module and one trait impl whose
parent is that module. -/
def c10Module : RustDatabaseItem :=
  ⟨.Module ⟨⟨["crate1", "m"]⟩, ⟨Option.none, Option.none⟩, .Normal⟩, Option.none⟩

def c10TraitImpl : RustDatabaseItem :=
  ⟨.TraitImpl ⟨⟨["crate1", "m"]⟩, .EmptyTuple, .EmptyTuple, [], []⟩, Option.none⟩

def c10Db : RustDatabase := ⟨[c10Module, c10TraitImpl]⟩

end Ritual

namespace Ritual

theorem Resolver.runItems_ok (allItems : List Resolver.DatabaseItem) :
    ∀ l : List Resolver.DatabaseItem, Resolver.runItems allItems l = Except.ok () := by
  intro l
  induction l with
  | nil => rfl
  | cons item rest ih =>
      unfold Resolver.runItems
      split
      · exact ih
      · split
        · exact ih
        · exact ih

/-- Claim C7: the resolvability pass always completes successfully: each
item whose check fails is skipped (recorded at trace detail only) and the
pass continues; a per-item failure never becomes a pipeline failure. -/
theorem c7_run_never_fails (databaseItems : List Resolver.DatabaseItem) :
    Resolver.run databaseItems = Except.ok () :=
  Resolver.runItems_ok databaseItems databaseItems

/-- Claim C9: the allocation-place suggestion pass is read-only: as a
state transformer it returns the database state it was given, unchanged
in every item. -/
theorem c9_suggest_read_only (data : Allocation.ProcessorData) :
    (Allocation.suggestAllocationPlacesPass data).1 = data :=
  rfl

/-- Claim C10: looking up a target-language item by path never yields a
trait-implementation item (trait impls carry no path of their own), and a
trait impl is reachable by enumerating the children of its recorded
parent path. -/
theorem c10_find_no_trait_impl :
    (∀ (db : RustDatabase) (p : RustPath) (item : RustDatabaseItem),
      db.find p = Option.some item →
      ∀ ti, item.kind ≠ RustItemKind.TraitImpl ti)
    ∧ (∀ (db : RustDatabase) (item : RustDatabaseItem) (ti : RustTraitImpl),
      item ∈ db.items → item.kind = RustItemKind.TraitImpl ti →
      item ∈ db.children ti.parentPath) := by
  constructor
  · intro db p item h ti hk
    have hp := List.find?_some h
    rw [show item.path = Option.none by
      unfold RustDatabaseItem.path; rw [hk]] at hp
    simp at hp
  · intro db item ti hm hk
    unfold RustDatabase.children
    rw [List.mem_filter]
    refine ⟨hm, ?_⟩
    unfold RustDatabaseItem.isChildOf
    rw [hk]
    simp

theorem c10_find_no_trait_impl_witness :
    c10Db.find ⟨["crate1", "m"]⟩ = Option.some c10Module
    ∧ (∀ ti, c10Module.kind ≠ RustItemKind.TraitImpl ti)
    ∧ c10TraitImpl ∈ c10Db.children ⟨["crate1", "m"]⟩ := by
  refine ⟨by decide, ?_, ?_⟩
  · exact c10_find_no_trait_impl.1 c10Db ⟨["crate1", "m"]⟩ c10Module (by decide)
  · exact c10_find_no_trait_impl.2 c10Db c10TraitImpl
      ⟨⟨["crate1", "m"]⟩, .EmptyTuple, .EmptyTuple, [], []⟩ (by decide) rfl

/-- Claim C1: a concrete class type that is not the flags wrapper,
passed by value, converts to a const pointer to the class with
`ValueToPointer` in non-return position and to a mutable pointer with
`ValueToPointer` in return position. -/
theorem c1_class_value_to_ffi (path : CppPath)
    (hflags : path.isFlagsWrapper = false)
    (hconc : (CppType.Class path).containsTemplateParameter = false) :
    (CppType.Class path).toCppFfiType .NotReturnType =
      Except.ok ⟨.Class path, .PointerLike .Pointer true (.Class path), .ValueToPointer⟩
    ∧ (CppType.Class path).toCppFfiType .ReturnType =
      Except.ok ⟨.Class path, .PointerLike .Pointer false (.Class path), .ValueToPointer⟩ := by
  constructor <;> simp [CppType.toCppFfiType, hflags, hconc]

theorem c1_class_value_to_ffi_witness :
    (CppPath.fromName "QPoint").isFlagsWrapper = false
    ∧ (CppType.Class (CppPath.fromName "QPoint")).toCppFfiType .NotReturnType =
      Except.ok ⟨.Class (CppPath.fromName "QPoint"),
        .PointerLike .Pointer true (.Class (CppPath.fromName "QPoint")), .ValueToPointer⟩
    ∧ (CppType.Class (CppPath.fromName "QPoint")).toCppFfiType .ReturnType =
      Except.ok ⟨.Class (CppPath.fromName "QPoint"),
        .PointerLike .Pointer false (.Class (CppPath.fromName "QPoint")), .ValueToPointer⟩ :=
  ⟨by decide,
   (c1_class_value_to_ffi (CppPath.fromName "QPoint") (by decide) (by decide)).1,
   (c1_class_value_to_ffi (CppPath.fromName "QPoint") (by decide) (by decide)).2⟩

/-- Claim C2, counterexample: class `C` has no virtual methods, one
behind-pointer occurrence, and total occurrence count 1 < 5, yet the
advisor does not leave it off both lists — it appears in the immovable
suggestion list (while also being reported indeterminate). -/
theorem c2_indeterminate_counterexample :
    (Allocation.computeStats c2Data).getEntry c2Path =
      Option.some ⟨false, 1, 0⟩
    ∧ (Allocation.suggestAllocationPlaces c2Data).movableTypes = []
    ∧ (Allocation.suggestAllocationPlaces c2Data).immovableTypes = [c2Path]
    ∧ (Allocation.suggestAllocationPlaces c2Data).traces =
      [Allocation.AllocationTrace.notEnoughData c2Path] := by
  refine ⟨by decide, by decide, by decide, by decide⟩

/-- Claim C6, counterexample: a function with two unregistered class
arguments `C1` and `C2` is rejected; registering `C1` alone does not
make re-checking succeed, because `C2` is still unknown. -/
theorem c6_resolvability_counterexample :
    (c6Func2.arguments.map (·.argumentType)).contains
        (CppType.Class (CppPath.fromName "C1")) = true
    ∧ Resolver.classRegistered c6Items0 (CppPath.fromName "C1") = false
    ∧ Resolver.isCppItemResolvable c6Items0 (.Function c6Func2) ≠ Except.ok ()
    ∧ Resolver.classRegistered c6Items1 (CppPath.fromName "C1") = true
    ∧ Resolver.isCppItemResolvable c6Items1 (.Function c6Func2) ≠ Except.ok () := by
  refine ⟨by decide, by decide, by decide, by decide, by decide⟩

end Ritual

namespace Ritual
open RustCodeGenerator

/-- Claim C5: a return value converted with `RefToPtr` generates code
that aborts with a diagnostic on a null pointer (the `.expect` call with
its message), while `OptionRefToPtr` generates the bare
`as_ref`/`as_mut` call whose null case is the empty option — no abort is
emitted.  (That a null raw pointer makes `as_ref` return the empty
option is a fact of the standard library of the target language, outside the
embedded fragment; the theorem pins down the generated code exactly.) -/
theorem c5_null_pointer_conversion :
    (∀ (currentCrate : String) (t : RustFinalType) (expr : String) (u v apiConst : Bool),
      t.rustApiToFfiConversion = RustToFfiTypeConversion.RefToPtr →
      t.rustApiType.lastIsConst = Except.ok apiConst →
      convertTypeFromFfi currentCrate t expr u v =
        Except.ok ((if v then "let ffi_result = " ++ expr ++ ";\n" else "")
          ++ (if u then "" else "unsafe \x7b ")
          ++ (if v then "ffi_result" else expr)
          ++ "." ++ (if apiConst then "as_ref" else "as_mut") ++ "()"
          ++ (if u then "" else " \x7d")
          ++ ".expect(\"Attempted to convert null pointer to reference\")"))
    ∧ (∀ (currentCrate : String) (t : RustFinalType) (expr : String) (u v apiConst : Bool)
        (path : RustPath) (boxedRef : RustType),
      t.rustApiToFfiConversion = RustToFfiTypeConversion.OptionRefToPtr →
      t.rustApiType = RustType.Common path (.some (.cons boxedRef .nil)) →
      boxedRef.lastIsConst = Except.ok apiConst →
      convertTypeFromFfi currentCrate t expr u v =
        Except.ok ((if v then "let ffi_result = " ++ expr ++ ";\n" else "")
          ++ (if u then "" else "unsafe \x7b ")
          ++ (if v then "ffi_result" else expr)
          ++ "." ++ (if apiConst then "as_ref" else "as_mut") ++ "()"
          ++ (if u then "" else " \x7d"))) := by
  constructor
  · intro currentCrate t expr u v apiConst hconv hlast
    cases u <;> cases v <;>
      simp [convertTypeFromFfi, hconv, hlast, Bind.bind, Except.bind]
  · intro currentCrate t expr u v apiConst path boxedRef hconv hapi hlast
    cases u <;> cases v <;>
      simp [convertTypeFromFfi, hconv, hapi, hlast, RustTypeList.length,
        Bind.bind, Except.bind]

theorem c5_null_pointer_conversion_witness :
    c5RefType.rustApiToFfiConversion = RustToFfiTypeConversion.RefToPtr
    ∧ convertTypeFromFfi "crate1" c5RefType "expr" false false =
      Except.ok
        "unsafe \x7b expr.as_ref() \x7d.expect(\"Attempted to convert null pointer to reference\")"
    ∧ c5OptType.rustApiToFfiConversion = RustToFfiTypeConversion.OptionRefToPtr
    ∧ convertTypeFromFfi "crate1" c5OptType "expr" false false =
      Except.ok "unsafe \x7b expr.as_ref() \x7d" := by
  refine ⟨rfl, ?_, rfl, ?_⟩
  · have h := c5_null_pointer_conversion.1 "crate1" c5RefType "expr" false false true
      rfl (by decide)
    exact h.trans (by decide)
  · have h := c5_null_pointer_conversion.2 "crate1" c5OptType "expr" false false true
      ⟨["std", "option", "Option"]⟩
      (.PointerLike (.Reference Option.none) true (.Common ⟨["crate1", "X"]⟩ .none))
      rfl rfl (by decide)
    exact h.trans (by decide)

end Ritual

namespace Ritual

/-- Claim C8: after the authoritative pass, the movable flag of a class
declaration is true exactly when its path appears in the configured
movable-types list (so classes previously movable but absent from the
list are reset), and items that are not class declarations are returned
unchanged. -/
theorem c8_set_allocation_places :
    (∀ (data : Allocation.ProcessorData) (i : Nat) (item : Allocation.CppDatabaseItem)
        (t : Allocation.CppTypeDeclaration) (flag : Bool),
      data.currentDatabase.cppItems.get? i = Option.some item →
      item.cppData = Allocation.CppItemData.Type t →
      t.kind = Allocation.CppTypeDeclarationKind.Class flag →
      (Allocation.setAllocationPlaces data).currentDatabase.cppItems.get? i =
        Option.some { item with cppData := Allocation.CppItemData.Type { t with
          kind := Allocation.CppTypeDeclarationKind.Class
            (data.config.movableTypes.any (fun p => p == t.path)) } }
      ∧ (data.config.movableTypes.any (fun p => p == t.path) = true
          ↔ t.path ∈ data.config.movableTypes))
    ∧ (∀ (data : Allocation.ProcessorData) (i : Nat) (item : Allocation.CppDatabaseItem),
      data.currentDatabase.cppItems.get? i = Option.some item →
      (∀ t flag, ¬(item.cppData = Allocation.CppItemData.Type t
        ∧ t.kind = Allocation.CppTypeDeclarationKind.Class flag)) →
      (Allocation.setAllocationPlaces data).currentDatabase.cppItems.get? i =
        Option.some item) := by
  constructor
  · intro data i item t flag h hData hKind
    constructor
    · unfold Allocation.setAllocationPlaces
      rw [List.get?_map, h]
      simp [hData, hKind]
    · simp [List.any_eq_true, beq_iff_eq]
  · intro data i item h hNotClass
    unfold Allocation.setAllocationPlaces
    rw [List.get?_map, h]
    rcases hcd : item.cppData with t | f
    · rcases hk : t.kind with flag | _
      · exact absurd ⟨hcd, hk⟩ (hNotClass t flag)
      · simp [hcd, hk]
    · simp [hcd]

theorem c8_set_allocation_places_witness :
    (Allocation.setAllocationPlaces c8Data).currentDatabase.cppItems.get? 0 =
      Option.some ⟨.Type ⟨CppPath.fromName "QPoint", .Class true⟩, Option.none, Option.none⟩
    ∧ (Allocation.setAllocationPlaces c8Data).currentDatabase.cppItems.get? 1 =
      Option.some ⟨.Type ⟨CppPath.fromName "E", .Enum⟩, Option.none, Option.none⟩ := by
  constructor
  · have h := (c8_set_allocation_places.1 c8Data 0
      ⟨.Type ⟨CppPath.fromName "QPoint", .Class false⟩, Option.none, Option.none⟩
      ⟨CppPath.fromName "QPoint", .Class false⟩ false (by decide) rfl rfl).1
    exact h.trans (by decide)
  · exact c8_set_allocation_places.2 c8Data 1
      ⟨.Type ⟨CppPath.fromName "E", .Enum⟩, Option.none, Option.none⟩
      (by decide)
      (by
        intro t flag h
        obtain ⟨h1, h2⟩ := h
        injection h1 with h1
        rw [← h1] at h2
        simp at h2)

end Ritual

namespace Ritual
namespace Allocation

/-- Case analysis of one classification step: either the accumulator is
returned unchanged, or the item is an eligible class declaration and its
path is pushed onto the list selected by `suggest_movable_types`,
together with the diagnostics of that decision. -/
theorem classifyStep_cases (data : ProcessorData) (dataMap : StatsMap)
    (acc : SuggestResult) (item : CppDatabaseItem) :
    classifyStep data dataMap acc item = acc
    ∨ ∃ t, item.cppData.asTypeRef = Option.some t
        ∧ t.kind.isClass = true
        ∧ data.config.movableTypes.any (fun n => n == t.path) = false
        ∧ ((suggestMovableDecision dataMap t.path).1 = true
            ∧ classifyStep data dataMap acc item =
              { acc with
                movableTypes := acc.movableTypes ++ [t.path]
                traces := acc.traces ++ (suggestMovableDecision dataMap t.path).2 }
          ∨ (suggestMovableDecision dataMap t.path).1 = false
            ∧ classifyStep data dataMap acc item =
              { acc with
                immovableTypes := acc.immovableTypes ++ [t.path]
                traces := acc.traces ++ (suggestMovableDecision dataMap t.path).2 }) := by
  unfold classifyStep
  rcases hType : item.cppData.asTypeRef with _ | t
  · exact Or.inl rfl
  · by_cases hClass : t.kind.isClass
    · by_cases hCfg : data.config.movableTypes.any (fun n => n == t.path) = true
      · simp [hClass, hCfg]
      · rw [Bool.not_eq_true] at hCfg
        by_cases hDec : (suggestMovableDecision dataMap t.path).1 = true
        · exact Or.inr ⟨t, rfl, hClass, hCfg, Or.inl ⟨hDec, by simp [hClass, hCfg, hDec]⟩⟩
        · rw [Bool.not_eq_true] at hDec
          exact Or.inr ⟨t, rfl, hClass, hCfg, Or.inr ⟨hDec, by simp [hClass, hCfg, hDec]⟩⟩
    · simp [Bool.not_eq_true] at hClass
      simp [hClass]

theorem foldl_classify_movable_subset (data : ProcessorData) (dataMap : StatsMap) :
    ∀ (items : List CppDatabaseItem) (acc : SuggestResult) (q : CppPath),
      q ∈ (items.foldl (classifyStep data dataMap) acc).movableTypes →
      q ∈ acc.movableTypes ∨ (suggestMovableDecision dataMap q).1 = true := by
  intro items
  induction items with
  | nil => intro acc q h; exact Or.inl h
  | cons a rest ih =>
      intro acc q h
      rw [List.foldl_cons] at h
      rcases ih (classifyStep data dataMap acc a) q h with h1 | h1
      · rcases classifyStep_cases data dataMap acc a with hc | ⟨t, _, _, _, hc | hc⟩
        · rw [hc] at h1; exact Or.inl h1
        · rw [hc.2] at h1
          rcases List.mem_append.1 h1 with h2 | h2
          · exact Or.inl h2
          · rw [List.mem_singleton] at h2
            subst h2
            exact Or.inr hc.1
        · rw [hc.2] at h1; exact Or.inl h1
      · exact Or.inr h1

theorem foldl_classify_mono (data : ProcessorData) (dataMap : StatsMap) :
    ∀ (items : List CppDatabaseItem) (acc : SuggestResult),
      (∀ q, q ∈ acc.immovableTypes →
        q ∈ (items.foldl (classifyStep data dataMap) acc).immovableTypes)
      ∧ (∀ e, e ∈ acc.traces →
        e ∈ (items.foldl (classifyStep data dataMap) acc).traces) := by
  intro items
  induction items with
  | nil => exact fun acc => ⟨fun q h => h, fun e h => h⟩
  | cons a rest ih =>
      intro acc
      rw [List.foldl_cons]
      constructor
      · intro q h
        refine (ih (classifyStep data dataMap acc a)).1 q ?_
        rcases classifyStep_cases data dataMap acc a with hc | ⟨t, _, _, _, hc | hc⟩
        · rw [hc]; exact h
        · rw [hc.2]; exact h
        · rw [hc.2]; exact List.mem_append_left _ h
      · intro e h
        refine (ih (classifyStep data dataMap acc a)).2 e ?_
        rcases classifyStep_cases data dataMap acc a with hc | ⟨t, _, _, _, hc | hc⟩
        · rw [hc]; exact h
        · rw [hc.2]; exact List.mem_append_left _ h
        · rw [hc.2]; exact List.mem_append_left _ h

theorem foldl_classify_immovable_mem (data : ProcessorData) (dataMap : StatsMap)
    (t : CppTypeDeclaration) :
    ∀ (items : List CppDatabaseItem) (acc : SuggestResult) (item : CppDatabaseItem),
      item ∈ items →
      item.cppData.asTypeRef = Option.some t →
      t.kind.isClass = true →
      data.config.movableTypes.any (fun n => n == t.path) = false →
      (suggestMovableDecision dataMap t.path).1 = false →
      t.path ∈ (items.foldl (classifyStep data dataMap) acc).immovableTypes
      ∧ ∀ e ∈ (suggestMovableDecision dataMap t.path).2,
          e ∈ (items.foldl (classifyStep data dataMap) acc).traces := by
  intro items
  induction items with
  | nil => intro acc item h; cases h
  | cons a rest ih =>
      intro acc item hMem hType hClass hCfg hDec
      rw [List.foldl_cons]
      rcases List.mem_cons.1 hMem with hEq | hRest
      · subst hEq
        have hStep : classifyStep data dataMap acc item =
            { acc with
              immovableTypes := acc.immovableTypes ++ [t.path]
              traces := acc.traces ++ (suggestMovableDecision dataMap t.path).2 } := by
          unfold classifyStep
          simp [hType, hClass, hCfg, hDec]
        rw [hStep]
        constructor
        · exact (foldl_classify_mono data dataMap rest _).1 t.path
            (List.mem_append_right _ (List.mem_singleton.2 rfl))
        · intro e he
          exact (foldl_classify_mono data dataMap rest _).2 e
            (List.mem_append_right _ he)
      · exact ih (classifyStep data dataMap acc a) item hRest hType hClass hCfg hDec

/-- The decision taken for a class whose statistics show no virtual
methods, a nonzero pointer count, and fewer than five total occurrences:
not movable, and an indeterminate "not enough data" diagnostic. -/
theorem suggestMovableDecision_indeterminate (dataMap : StatsMap) (p : CppPath)
    (stats : TypeStats)
    (h : dataMap.getEntry p = Option.some stats)
    (hVirt : stats.hasVirtualMethods = false)
    (hPtr : stats.pointersCount ≠ 0)
    (hTot : stats.pointersCount + stats.notPointersCount < 5) :
    suggestMovableDecision dataMap p = (false, [AllocationTrace.notEnoughData p]) := by
  unfold suggestMovableDecision
  rw [h]
  simp [hVirt, hPtr, hTot]

end Allocation

/-- Claim C2 (amended): a class with no virtual methods, a nonzero
behind-pointer count, and a total occurrence count below the
minimum sample threshold (5) is reported indeterminate ("not enough
data", at trace detail) and is not suggested movable; the advisor places
it in the presumably-immovable suggestion list rather than omitting it
from both lists. -/
theorem c2_indeterminate_suggestion (data : Allocation.ProcessorData)
    (path : CppPath) (stats : Allocation.TypeStats)
    (item : Allocation.CppDatabaseItem) (t : Allocation.CppTypeDeclaration)
    (hItem : item ∈ data.currentDatabase.cppItems)
    (hType : item.cppData.asTypeRef = Option.some t)
    (hPath : t.path = path)
    (hClass : t.kind.isClass = true)
    (hCfg : data.config.movableTypes.any (fun n => n == path) = false)
    (hStats : (Allocation.computeStats data).getEntry path = Option.some stats)
    (hVirt : stats.hasVirtualMethods = false)
    (hPtr : stats.pointersCount ≠ 0)
    (hTot : stats.pointersCount + stats.notPointersCount < 5) :
    path ∉ (Allocation.suggestAllocationPlaces data).movableTypes
    ∧ path ∈ (Allocation.suggestAllocationPlaces data).immovableTypes
    ∧ Allocation.AllocationTrace.notEnoughData path
        ∈ (Allocation.suggestAllocationPlaces data).traces := by
  subst hPath
  have hDec := Allocation.suggestMovableDecision_indeterminate
    (Allocation.computeStats data) t.path stats hStats hVirt hPtr hTot
  have hMain := Allocation.foldl_classify_immovable_mem data
    (Allocation.computeStats data) t data.currentDatabase.cppItems ⟨[], [], []⟩ item
    hItem hType hClass hCfg (by rw [hDec])
  refine ⟨?_, hMain.1, ?_⟩
  · intro hIn
    rcases Allocation.foldl_classify_movable_subset data (Allocation.computeStats data)
      data.currentDatabase.cppItems ⟨[], [], []⟩ t.path hIn with h | h
    · cases h
    · rw [hDec] at h
      cases h
  · exact hMain.2 (Allocation.AllocationTrace.notEnoughData t.path)
      (by rw [hDec]; exact List.mem_singleton.2 rfl)

theorem c2_indeterminate_suggestion_witness :
    (Allocation.computeStats c2Data).getEntry c2Path = Option.some ⟨false, 1, 0⟩
    ∧ c2Path ∉ (Allocation.suggestAllocationPlaces c2Data).movableTypes
    ∧ c2Path ∈ (Allocation.suggestAllocationPlaces c2Data).immovableTypes
    ∧ Allocation.AllocationTrace.notEnoughData c2Path
        ∈ (Allocation.suggestAllocationPlaces c2Data).traces := by
  have h := c2_indeterminate_suggestion c2Data c2Path ⟨false, 1, 0⟩
    ⟨.Type ⟨c2Path, .Class false⟩, Option.none, Option.none⟩
    ⟨c2Path, .Class false⟩
    (by decide) rfl rfl rfl rfl (by decide) rfl (by decide) (by decide)
  exact ⟨by decide, h.1, h.2.1, h.2.2⟩

end Ritual

namespace Ritual
namespace Resolver

theorem classRegistered_append (l l' : List DatabaseItem) (p : CppPath) :
    classRegistered (l ++ l') p = (classRegistered l p || classRegistered l' p) := by
  unfold classRegistered
  rw [List.filterMap_append, List.any_append]

theorem enumRegistered_append (l l' : List DatabaseItem) (p : CppPath) :
    enumRegistered (l ++ l') p = (enumRegistered l p || enumRegistered l' p) := by
  unfold enumRegistered
  rw [List.filterMap_append, List.any_append]

mutual

/-- Registering additional items never invalidates a type that already
passed the resolvability check. -/
theorem checkType_append (allItems newItems : List DatabaseItem) :
    ∀ t : CppType, checkType allItems t = Except.ok () →
      checkType (allItems ++ newItems) t = Except.ok ()
  | .Class path, h => by
      by_cases hreg : classRegistered allItems path
      · have hreg2 : classRegistered (allItems ++ newItems) path = true := by
          rw [classRegistered_append, hreg, Bool.true_or]
        unfold checkType at h ⊢
        rw [hreg] at h
        rw [hreg2]
        exact h
      · rw [Bool.not_eq_true] at hreg
        unfold checkType at h
        rw [hreg] at h
        simp at h
  | .Enum path, h => by
      by_cases hreg : enumRegistered allItems path
      · have hreg2 : enumRegistered (allItems ++ newItems) path = true := by
          rw [enumRegistered_append, hreg, Bool.true_or]
        unfold checkType at h ⊢
        rw [hreg] at h
        rw [hreg2]
        exact h
      · rw [Bool.not_eq_true] at hreg
        unfold checkType at h
        rw [hreg] at h
        simp at h
  | .PointerLike _ _ target, h => checkType_append allItems newItems target h
  | .FunctionPointer returnType arguments _, h => by
      unfold checkType at h ⊢
      rcases hr : checkType allItems returnType with e | u
      · rw [hr] at h; simp at h
      · cases u
        rw [hr] at h
        rw [checkType_append allItems newItems returnType hr]
        exact checkTypeList_append allItems newItems arguments h
  | .Void, _ => rfl
  | .BuiltInNumeric _, _ => rfl
  | .SpecificNumeric _ _ _ _, _ => rfl
  | .PointerSizedInteger _ _, _ => rfl
  | .TemplateParameter _ _ _, h => by
      unfold checkType at h
      simp at h

theorem checkTypeList_append (allItems newItems : List DatabaseItem) :
    ∀ l : CppTypeList, checkTypeList allItems l = Except.ok () →
      checkTypeList (allItems ++ newItems) l = Except.ok ()
  | .nil, _ => rfl
  | .cons t rest, h => by
      unfold checkTypeList at h ⊢
      rcases ht : checkType allItems t with e | u
      · rw [ht] at h; simp at h
      · cases u
        rw [ht] at h
        rw [checkType_append allItems newItems t ht]
        exact checkTypeList_append allItems newItems rest h

end

theorem checkAllTypes_ok_of (allItems : List DatabaseItem) :
    ∀ l : List CppType, (∀ t ∈ l, checkType allItems t = Except.ok ()) →
      checkAllTypes allItems l = Except.ok ()
  | [], _ => rfl
  | t :: rest, h => by
      have ht := h t (List.mem_cons_self t rest)
      unfold checkAllTypes
      rw [ht]
      exact checkAllTypes_ok_of allItems rest (fun x hx => h x (List.mem_cons_of_mem _ hx))

theorem checkAllTypes_mem_fail (allItems : List DatabaseItem) :
    ∀ (l : List CppType) (t : CppType), t ∈ l →
      checkType allItems t ≠ Except.ok () →
      checkAllTypes allItems l ≠ Except.ok () := by
  intro l
  induction l with
  | nil => intro t h; cases h
  | cons a rest ih =>
      intro t hMem hFail
      unfold checkAllTypes
      rcases ha : checkType allItems a with e | u
      · simp
      · cases u
        rcases List.mem_cons.1 hMem with hEq | hRest
        · subst hEq
          exact absurd ha hFail
        · exact ih t hRest hFail

end Resolver

/-- Claim C6 (amended): a function item with an argument naming an
unregistered class path is rejected by the resolvability check; after an
item registering that path with class kind is added, re-checking
succeeds provided the remaining types involved in the item were already
resolvable (in the counterexample a second unregistered class keeps the
item rejected). -/
theorem c6_resolvability_check :
    (∀ (allItems : List Resolver.DatabaseItem) (f : Resolver.CppFunction)
        (p : CppPath) (arg : Resolver.CppFunctionArgument),
      arg ∈ f.arguments → arg.argumentType = CppType.Class p →
      Resolver.classRegistered allItems p = false →
      Resolver.isCppItemResolvable allItems (.Function f) ≠ Except.ok ())
    ∧ (∀ (allItems : List Resolver.DatabaseItem) (f : Resolver.CppFunction)
        (d : Resolver.CppTypeData) (src : Resolver.DatabaseItemSource)
        (ffiI rustI : Option Unit),
      d.kind = Resolver.CppTypeDataKind.Class →
      (match d.path.last.templateArguments with
       | CppTemplateArgs.some args => args.containsTemplateParameter = false
       | CppTemplateArgs.none => True) →
      (∀ t ∈ (Resolver.CppItemData.Function f).allInvolvedTypes,
        Resolver.checkType allItems t = Except.ok () ∨ t = CppType.Class d.path) →
      Resolver.isCppItemResolvable (allItems ++ [⟨.Type d, src, ffiI, rustI⟩])
        (.Function f) = Except.ok ()) := by
  constructor
  · intro allItems f p arg hMem hArg hReg
    unfold Resolver.isCppItemResolvable
    apply Resolver.checkAllTypes_mem_fail allItems _ (CppType.Class p)
    · unfold Resolver.CppItemData.allInvolvedTypes
      exact List.mem_append_left _ (List.mem_map.2 ⟨arg, hMem, hArg⟩)
    · intro h
      unfold Resolver.checkType at h
      rw [hReg] at h
      simp at h
  · intro allItems f d src ffiI rustI hKind hTmpl hAll
    unfold Resolver.isCppItemResolvable
    apply Resolver.checkAllTypes_ok_of
    intro t ht
    rcases hAll t ht with h | h
    · exact Resolver.checkType_append allItems _ t h
    · subst h
      have hReg : Resolver.classRegistered
          (allItems ++ [⟨.Type d, src, ffiI, rustI⟩]) d.path = true := by
        rw [Resolver.classRegistered_append]
        have h2 : Resolver.classRegistered [(⟨.Type d, src, ffiI, rustI⟩ :
            Resolver.DatabaseItem)] d.path = true := by
          simp [Resolver.classRegistered, Resolver.CppItemData.asTypeRef, hKind,
            Resolver.CppTypeDataKind.isClass]
        rw [h2, Bool.or_true]
      unfold Resolver.checkType
      rw [hReg]
      simp only [Bool.not_true, Bool.false_eq_true, if_false]
      split
      · next args heq =>
          rw [heq] at hTmpl
          simp [hTmpl]
      · rfl

theorem c6_resolvability_check_witness :
    Resolver.classRegistered c6Items0Single (CppPath.fromName "C1") = false
    ∧ Resolver.isCppItemResolvable c6Items0Single (.Function c6Func1) ≠ Except.ok ()
    ∧ Resolver.isCppItemResolvable (c6Items0Single ++ [c6ClassItem]) (.Function c6Func1)
      = Except.ok () := by
  refine ⟨by decide, ?_, ?_⟩
  · exact c6_resolvability_check.1 c6Items0Single c6Func1 (CppPath.fromName "C1")
      ⟨"a", .Class (CppPath.fromName "C1"), false⟩
      (List.mem_singleton.2 rfl) rfl (by decide)
  · exact c6_resolvability_check.2 c6Items0Single c6Func1 c6ClassData .ImplicitDestructor
      Option.none Option.none rfl (by simp [c6ClassData, CppPath.fromName,
        CppPath.last, CppPath.items, CppPathItemList.getLastD,
        CppPathItem.templateArguments])
      (by
        intro t ht
        simp [Resolver.CppItemData.allInvolvedTypes, c6Func1, c6FuncBase] at ht
        rcases ht with h | h
        · right; rw [h]; rfl
        · left; rw [h]; rfl)

end Ritual

namespace Ritual
open RustCodeGenerator

/-- Claim C3, counterexample: a wrapper function with no arguments whose
return API type carries the named lifetime `a` is generated with an
empty lifetime parameter list; the "arguments and return type"
collection would yield the nonempty set containing `a`. -/
theorem c3_lifetimes_counterexample :
    functionLifetimes c3Func = []
    ∧ c3Func.returnType.rustApiType.lifetime = Option.some "a"
    ∧ generateRustFinalFunction "crate1" c3Func =
      Except.ok "pub fn f() -> &\x27a crate1::T \x7b\nlet ffi_result = unsafe \x7b crate1::ffi::f() \x7d;\nunsafe \x7b ffi_result.as_ref() \x7d.expect(\"Attempted to convert null pointer to reference\")\x7d\n\n" := by
  refine ⟨by decide, by decide, by decide⟩

/-- Claim C3 (amended): the synthesized lifetime parameter list of a
generated wrapper function consists of the named lifetimes of its
argument API types (one per argument that has one, in argument order);
the return type is not consulted.  When no argument API type carries a
named lifetime the function is generated without lifetime parameters. -/
theorem c3_lifetimes_from_arguments (currentCrate : String) (func : RustFunction)
    (s : String)
    (h : generateRustFinalFunction currentCrate func = Except.ok s) :
    ∃ (body : String) (args : List String),
      argTexts currentCrate func.arguments Option.none = Except.ok args
      ∧ s = formatDoc (functionDoc func)
          ++ (match func.scope with | RustFunctionScope.TraitImpl => "" | _ => "pub ")
          ++ (if func.isUnsafe then "unsafe " else "")
          ++ "fn " ++ func.path.last
          ++ renderLifetimes (functionLifetimes func)
          ++ "(" ++ String.intercalate ", " args ++ ")"
          ++ (if func.returnType.rustApiType = RustType.EmptyTuple then ""
              else " -> " ++ rustTypeToCode func.returnType.rustApiType currentCrate)
          ++ " \x7b\n" ++ body ++ "\x7d\n\n"
      ∧ functionLifetimes func
          = func.arguments.filterMap (fun x => x.argumentType.rustApiType.lifetime)
      ∧ ((∀ a ∈ func.arguments, a.argumentType.rustApiType.lifetime = Option.none) →
          renderLifetimes (functionLifetimes func) = "") := by
  unfold generateRustFinalFunction at h
  rcases hk : func.kind with data | del | ⟨a, b, c, d, e⟩
  · simp only [hk] at h
    rcases hb : generateFfiCall currentCrate func.arguments func.returnType data
        func.isUnsafe with e | body
    · simp [hb, Bind.bind, Except.bind] at h
    · simp only [hb, Bind.bind, Except.bind] at h
      rcases ha : argTexts currentCrate func.arguments Option.none with e | args
      · simp [ha] at h
      · simp only [ha] at h
        refine ⟨body, args, rfl, ?_, rfl, ?_⟩
        · cases h
          rfl
        · intro hAll
          unfold renderLifetimes
          have hNil : functionLifetimes func = [] := by
            unfold functionLifetimes
            exact List.filterMap_eq_nil_iff.2 hAll
          rw [hNil]
          rfl
  · simp only [hk, Bind.bind, Except.bind] at h
    exact Except.noConfusion h
  · simp only [hk, Bind.bind, Except.bind] at h
    exact Except.noConfusion h

theorem c3_lifetimes_from_arguments_witness :
    renderLifetimes (functionLifetimes c3Func) = ""
    ∧ functionLifetimes c3Func
      = c3Func.arguments.filterMap (fun x => x.argumentType.rustApiType.lifetime) := by
  have h := c3_lifetimes_from_arguments "crate1" c3Func
    "pub fn f() -> &\x27a crate1::T \x7b\nlet ffi_result = unsafe \x7b crate1::ffi::f() \x7d;\nunsafe \x7b ffi_result.as_ref() \x7d.expect(\"Attempted to convert null pointer to reference\")\x7d\n\n"
    (by decide)
  obtain ⟨body, args, _, _, hLifetimes, hEmpty⟩ := h
  refine ⟨hEmpty ?_, hLifetimes⟩
  intro a ha
  rw [show c3Func.arguments = [] from rfl] at ha
  cases ha

end Ritual

namespace Ritual
namespace RustCodeGenerator

/-- Inversion of a successful `Except` bind. -/
theorem except_bind_ok {ε α β : Type} (x : Except ε α) (f : α → Except ε β) (b : β) :
    (x >>= f) = Except.ok b ↔ ∃ a, x = Except.ok a ∧ f a = Except.ok b := by
  cases x <;> simp [Bind.bind, Except.bind]

/-- One argument step preserves the length of the slot list. -/
theorem processFfiArg_length (currentCrate : String) (finalArgs : List (Option String))
    (arg : RustFunctionArgument) (out : List (Option String))
    (h : processFfiArg currentCrate finalArgs arg = Except.ok out) :
    out.length = finalArgs.length := by
  unfold processFfiArg at h
  split at h
  · exact Except.noConfusion h
  · obtain ⟨code, _, hset⟩ := (except_bind_ok _ _ _).1 h
    injection hset with hset
    rw [← hset, List.length_set]

/-- The argument loop preserves the length of the slot list. -/
theorem foldlM_processFfiArg_length (currentCrate : String) :
    ∀ (args : List RustFunctionArgument) (finalArgs out : List (Option String)),
      List.foldlM (processFfiArg currentCrate) finalArgs args = Except.ok out →
      out.length = finalArgs.length := by
  intro args
  induction args with
  | nil =>
      intro fa out h
      have h2 : Except.ok (ε := String) fa = Except.ok out := h
      injection h2 with h2
      rw [h2]
  | cons a rest ih =>
      intro fa out h
      rw [show List.foldlM (processFfiArg currentCrate) fa (a :: rest)
          = processFfiArg currentCrate fa a >>= fun fa2 =>
              List.foldlM (processFfiArg currentCrate) fa2 rest from rfl] at h
      obtain ⟨fa2, hstep, hrest⟩ := (except_bind_ok _ _ _).1 h
      rw [ih fa2 out hrest, processFfiArg_length currentCrate fa a fa2 hstep]

/-- A slot that holds a value before the unwrapping pass holds the same
value in the unwrapped list. -/
theorem mapM_requireFfiArg_get :
    ∀ (l : List (Option String)) (out : List String),
      l.mapM requireFfiArg = Except.ok out →
      ∀ (j : Nat) (v : String), l.get? j = Option.some (Option.some v) →
        out.get? j = Option.some v := by
  intro l
  induction l with
  | nil =>
      intro out h j v hj
      cases j <;> simp at hj
  | cons x rest ih =>
      intro out h j v hj
      rw [List.mapM_cons] at h
      obtain ⟨y, hy, h2⟩ := (except_bind_ok _ _ _).1 h
      obtain ⟨ys, hys, h3⟩ := (except_bind_ok _ _ _).1 h2
      have hout : out = y :: ys := by
        have h4 : Except.ok (ε := String) (y :: ys) = Except.ok out := h3
        injection h4 with h4
        rw [h4]
      subst hout
      cases j with
      | zero =>
          simp at hj
          rw [hj] at hy
          injection hy with hy
          simp [hy]
      | succ j =>
          simp only [List.get?_cons_succ] at hj ⊢
          exact ih ys hys j v hj

end RustCodeGenerator
end Ritual

namespace Ritual
open RustCodeGenerator

/-- Claim C4 (amended): when the return conversion uses the designated
out-location slot, the generated body declares an uninitialized local
(of the API aggregate type for `ValueToPtr`, of the target type of the
owning handle for `OwningHandleToPtr`), passes its address in that slot,
invokes the foreign function, and yields the local directly in both
cases — no owning-handle wrapping is inserted. -/
theorem c4_outslot_protocol (currentCrate : String)
    (arguments : List RustFunctionArgument) (returnType : RustFinalType)
    (wrapperData : RustFfiWrapperData) (inUnsafeContext : Bool) (i : Nat) (s : String)
    (hIdx : wrapperData.returnTypeFfiIndex = Option.some i)
    (hLt : i < wrapperData.cppFfiFunction.arguments.length)
    (h : generateFfiCall currentCrate arguments returnType wrapperData inUnsafeContext
      = Except.ok s) :
    ∃ (structName : String) (finalArgsStrs : List String),
      (returnType.rustApiToFfiConversion = RustToFfiTypeConversion.ValueToPtr →
        structName = rustTypeToCode returnType.rustApiType currentCrate)
      ∧ (∀ (path : RustPath) (boxArg : RustType) (rest : RustTypeList),
          returnType.rustApiToFfiConversion = RustToFfiTypeConversion.CppBoxToPtr →
          returnType.rustApiType = RustType.Common path (.some (.cons boxArg rest)) →
          structName = rustTypeToCode boxArg currentCrate)
      ∧ finalArgsStrs.get? i =
          Option.some ("&mut " ++ pickReturnVarName (arguments.map (fun a => a.name)))
      ∧ s = "\x7b\nlet mut " ++ pickReturnVarName (arguments.map (fun a => a.name)) ++ ": "
          ++ structName ++ " = "
          ++ (if inUnsafeContext then "" else "unsafe \x7b ")
          ++ "::cpp_utils::new_uninitialized::NewUninitialized::new_uninitialized()"
          ++ (if inUnsafeContext then "" else " \x7d") ++ ";\n"
          ++ (if inUnsafeContext then "" else "unsafe \x7b ")
          ++ wrapperData.ffiFunctionPath.fullName (Option.some currentCrate)
          ++ "(" ++ String.intercalate ", " finalArgsStrs ++ ")" ++ ";"
          ++ (if inUnsafeContext then "" else " \x7d")
          ++ pickReturnVarName (arguments.map (fun a => a.name)) ++ "\n\x7d" := by
  unfold generateFfiCall at h
  cases inUnsafeContext <;>
  · simp only [Bind.bind, Except.bind, hIdx] at h
    obtain ⟨finalArgs0, hFold, h2⟩ := (except_bind_ok _ _ _).1 h
    obtain ⟨triple, hTriple, h3⟩ := (except_bind_ok _ _ _).1 h2
    obtain ⟨structName, hSN, hTripleEq⟩ := (except_bind_ok _ _ _).1 hTriple
    injection hTripleEq with hTripleEq
    rw [← hTripleEq] at h3
    simp only [] at h3
    obtain ⟨strs, hMap, h4⟩ := (except_bind_ok _ _ _).1 h3
    simp only [Option.isSome] at h4
    injection h4 with h4
    refine ⟨structName, strs, ?_, ?_, ?_, ?_⟩
    · intro hcv
      unfold outSlotStructName at hSN
      simp only [hcv] at hSN
      simp at hSN
      exact hSN.symm
    · intro path boxArg rest hcv happi
      unfold outSlotStructName at hSN
      simp only [hcv, happi] at hSN
      simp at hSN
      exact hSN.symm
    · have hLen0 : finalArgs0.length = wrapperData.cppFfiFunction.arguments.length := by
        have hl := foldlM_processFfiArg_length currentCrate arguments _ finalArgs0 hFold
        simpa using hl
      apply mapM_requireFfiArg_get _ strs hMap i
      rw [List.get?_eq_getElem?]
      rw [List.getElem?_set_self (by rw [hLen0]; exact hLt)]
    · rw [← h4]
      apply String.ext
      simp [String.data_append, List.append_assoc]

end Ritual

namespace Ritual
open RustCodeGenerator

/-- Claim C4, counterexample: for an owning-handle (`CppBoxToPtr`) return
conversion through out-location slot 0, the generated body yields the
bare local (it ends with the local followed by the closing brace) and
contains no owning-handle constructor — the raw pointer is never wrapped,
contrary to the claim. -/
theorem c4_outslot_counterexample :
    c4Ret.rustApiToFfiConversion = RustToFfiTypeConversion.CppBoxToPtr
    ∧ c4Wd.returnTypeFfiIndex = Option.some 0
    ∧ generateFfiCall "crate1" [] c4Ret c4Wd false = Except.ok c4Out
    ∧ ¬ ("CppBox::new".toList <:+: c4Out.toList)
    ∧ ("object\n\x7d".toList <:+ c4Out.toList) := by
  refine ⟨rfl, rfl, by decide, by decide, by decide⟩

theorem c4_outslot_protocol_witness :
    c4Wd.returnTypeFfiIndex = Option.some 0
    ∧ 0 < c4Wd.cppFfiFunction.arguments.length
    ∧ ∃ (structName : String) (finalArgsStrs : List String),
      (c4ValueRet.rustApiToFfiConversion = RustToFfiTypeConversion.ValueToPtr →
        structName = rustTypeToCode c4ValueRet.rustApiType "crate1")
      ∧ (∀ (path : RustPath) (boxArg : RustType) (rest : RustTypeList),
          c4ValueRet.rustApiToFfiConversion = RustToFfiTypeConversion.CppBoxToPtr →
          c4ValueRet.rustApiType = RustType.Common path (.some (.cons boxArg rest)) →
          structName = rustTypeToCode boxArg "crate1")
      ∧ finalArgsStrs.get? 0 =
          Option.some ("&mut " ++ pickReturnVarName (([] : List RustFunctionArgument).map
            (fun a => a.name)))
      ∧ c4Out = "\x7b\nlet mut "
          ++ pickReturnVarName (([] : List RustFunctionArgument).map (fun a => a.name)) ++ ": "
          ++ structName ++ " = "
          ++ (if false then "" else "unsafe \x7b ")
          ++ "::cpp_utils::new_uninitialized::NewUninitialized::new_uninitialized()"
          ++ (if false then "" else " \x7d") ++ ";\n"
          ++ (if false then "" else "unsafe \x7b ")
          ++ c4Wd.ffiFunctionPath.fullName (Option.some "crate1")
          ++ "(" ++ String.intercalate ", " finalArgsStrs ++ ")" ++ ";"
          ++ (if false then "" else " \x7d")
          ++ pickReturnVarName (([] : List RustFunctionArgument).map (fun a => a.name))
          ++ "\n\x7d" :=
  ⟨rfl, by decide,
   c4_outslot_protocol "crate1" [] c4ValueRet c4Wd false 0 c4Out rfl (by decide) (by decide)⟩

end Ritual
